import Mathlib

/-!
Shallow embedding of the garminfit FIT-file decoder.

The record layer (`src/types/record.rs`) is embedded definition by
definition: `Header.decode`, `Definition.decode`, `FieldDefinition.decode`,
`Data.decode`, `Record.decode` and `Architecture.tryFrom` below follow the
Rust source line by line.  The generated profile layer
(`src/profile/messages.rs`) is a mechanically uniform dispatch on
`(global mesg num, field definition number)`; it is embedded as the data
table `profileTable` extracted arm-for-arm from the source, together with
the two-level lookup `profile.Message.decode` that mirrors the source's
nested `match` structure (unknown message number falls through to
`Message::Unknown`, unknown field number to the per-message `Unknown`
variant, and a recognized pair decodes its annotated typed field).

The byte source is a `List Nat` of byte values; `std::io::Read` on an
in-memory source is modelled by `takeFill`: `read` into a zero-initialised
buffer of length `size` copies `min (size, remaining)` bytes and never
fails, leaving the tail of the buffer zero — exactly the behaviour of the
non-erroring `read` call in `Data::decode`.

Pieces of the crate that the claims depend on but whose sources are not
under `src/` are modelled from the specification and marked as such in
their doc comments: the bit utilities (spec 4.A), the base-type codecs
(spec 4.B) and the error kinds (spec 4.G).  IEEE-754 arithmetic in
`Field::value` is modelled exactly over `Rat`.
-/

namespace GarminFit

deriving instance DecidableEq for Except

/-- Modelled from the spec: the error kinds of the crate's error module
(spec 4.G; the module itself is not under src/).  `Read` and `Decoding`
carry a context string and a cause, `Eof` stands for the underlying
I/O end-of-input condition. -/
inductive Error where
  | Eof : Error
  | Read : String → Error → Error
  | Decoding : String → Error → Error
  | MissingDefinition : Nat → Error
  | UnknownArchitecture : Nat → Error
  | InvalidEncoding : Error
deriving DecidableEq

/-- The sequential byte source: a list of byte values. -/
abbrev Rd := List Nat

/-- One byte from the source; end of input fails like `read_u8` does,
wrapped by `Error::reading(ctx)`. -/
def readU8 (ctx : String) : Rd → Except Error (Nat × Rd)
  | [] => .error (.Read ctx .Eof)
  | b :: rest => .ok (b, rest)

/-- Modelled from the spec: `is_bit_set` of the bit-utility component
(spec 4.A; the `bits` crate is not under src/). -/
def bit_is_set (b : Nat) (i : Nat) : Bool := b.testBit i

/-- Modelled from the spec: `is_bit_not_set` of the bit-utility component
(spec 4.A). -/
def bit_not_set (b : Nat) (i : Nat) : Bool := !(b.testBit i)

/-- Modelled from the spec: `bit_range(byte, lo, hi)` returning the
zero-based inclusive bit range as an unsigned value (spec 4.A). -/
def bit_range (b : Nat) (lo hi : Nat) : Nat := (b >>> lo) % 2 ^ (hi - lo + 1)

/-- The three record-header variants of `types::record::Header`. -/
inductive Header where
  | Definition : (local_mesg_num : Nat) → (has_dev_fields : Bool) → Header
  | Data : (local_mesg_num : Nat) → Header
  | CompressedTimestamp : (local_mesg_num : Nat) → (time_offset : Nat) → Header
deriving DecidableEq

/-- `Header::decode`: read one byte and dispatch on bits 7 and 6. -/
def Header.decode (rd : Rd) : Except Error (Header × Rd) :=
  match readU8 "byte" rd with
  | .error e => .error e
  | .ok (byte, rd) =>
    if bit_not_set byte 7 then
      if bit_is_set byte 6 then
        .ok (.Definition (bit_range byte 0 3) (bit_is_set byte 5), rd)
      else
        .ok (.Data (bit_range byte 0 3), rd)
    else
      .ok (.CompressedTimestamp (bit_range byte 5 6) (bit_range byte 0 4), rd)

/-- `Header::local_mesg_num`: the local message number common to all
header variants. -/
def Header.local_mesg_num : Header → Nat
  | .Definition n _ => n
  | .Data n => n
  | .CompressedTimestamp n _ => n

/-- `types::record::Architecture`. -/
inductive Architecture where
  | LittleEndian
  | BigEndian
deriving DecidableEq

/-- `Architecture::try_from`: 0 and 1 are the only architectures. -/
def Architecture.tryFrom (n : Nat) : Except Error Architecture :=
  match n with
  | 0 => .ok .LittleEndian
  | 1 => .ok .BigEndian
  | _ => .error (.UnknownArchitecture n)

/-- The two `byteorder` byte orders the source instantiates. -/
inductive ByteOrder where
  | LittleEndian
  | BigEndian
deriving DecidableEq

/-- The byte order the `match definition.arch` in `Record::decode`
selects for each architecture. -/
def Architecture.byteOrder : Architecture → ByteOrder
  | .LittleEndian => .LittleEndian
  | .BigEndian => .BigEndian

/-- `read_u16::<T>`: two bytes combined in the given byte order. -/
def readU16 (en : ByteOrder) (ctx : String) : Rd → Except Error (Nat × Rd)
  | b0 :: b1 :: rest =>
    match en with
    | .LittleEndian => .ok (b0 + 256 * b1, rest)
    | .BigEndian => .ok (256 * b0 + b1, rest)
  | _ => .error (.Read ctx .Eof)

/-- `types::record::FieldDefinition`: field number, declared size and
base type id. -/
structure FieldDefinition where
  num : Nat
  size : Nat
  base_type_num : Nat
deriving DecidableEq

/-- `FieldDefinition::decode`: three bytes.  A regular field keeps its
field number and base type id; a developer field is stored with
`num = 255` and base type 13 (byte array), keeping only the declared
size. -/
def FieldDefinition.decode (is_developer_field : Bool) (rd : Rd) :
    Except Error (FieldDefinition × Rd) :=
  match is_developer_field with
  | false =>
    match readU8 "field number" rd with
    | .error e => .error e
    | .ok (field_number, rd) =>
      match readU8 "field size" rd with
      | .error e => .error e
      | .ok (field_size, rd) =>
        match readU8 "field base type id" rd with
        | .error e => .error e
        | .ok (base_type_id, rd) =>
          .ok ({ num := field_number, size := field_size,
                 base_type_num := base_type_id }, rd)
  | true =>
    match readU8 "developer field number" rd with
    | .error e => .error e
    | .ok (_field_number, rd) =>
      match readU8 "developer field size" rd with
      | .error e => .error e
      | .ok (field_size, rd) =>
        match readU8 "developer field data index" rd with
        | .error e => .error e
        | .ok (_developer_data_index, rd) =>
          .ok ({ num := 255, size := field_size, base_type_num := 13 }, rd)

/-- `types::record::Definition`: a definition record. -/
structure Definition where
  arch : Architecture
  global_mesg_num : Nat
  nfields : Nat
  field_defs : List FieldDefinition
  ndevfields : Option Nat
  devfield_defs : Option (List FieldDefinition)
deriving DecidableEq

/-- Map the cause of a failure, as `map_err` does. -/
def emap (f : Error → Error) : Except Error α → Except Error α
  | .error e => .error (f e)
  | .ok a => .ok a

/-- The `for i in 0..n` loop of `Definition::decode` reading `k` more
field definitions starting at index `i`; each failure is wrapped with
the `field definition #i` context. -/
def decodeFieldDefs (dev : Bool) (i : Nat) : Nat → Rd →
    Except Error (List FieldDefinition × Rd)
  | 0, rd => .ok ([], rd)
  | k + 1, rd =>
    match emap (.Read ("field definition #" ++ toString i))
        (FieldDefinition.decode dev rd) with
    | .error e => .error e
    | .ok (fd, rd) =>
      match decodeFieldDefs dev (i + 1) k rd with
      | .error e => .error e
      | .ok (fds, rd) => .ok (fd :: fds, rd)

/-- `Definition::decode`: reserved byte, architecture byte, global
message number in the architecture's byte order, field count, the field
definitions, and — exactly when the header carried the dev-fields flag —
a developer-field count and the developer-field definitions. -/
def Definition.decode (has_dev_fields : Bool) (rd : Rd) :
    Except Error (Definition × Rd) :=
  match readU8 "reserved byte" rd with
  | .error e => .error e
  | .ok (_, rd) =>
    match readU8 "architecture byte" rd with
    | .error e => .error e
    | .ok (a, rd) =>
      match Architecture.tryFrom a with
      | .error e => .error e
      | .ok arch =>
      match readU16 arch.byteOrder "global message number" rd with
      | .error e => .error e
      | .ok (global_mesg_num, rd) =>
        match readU8 "number of fields" rd with
        | .error e => .error e
        | .ok (nfields, rd) =>
          match decodeFieldDefs false 0 nfields rd with
          | .error e => .error e
          | .ok (field_defs, rd) =>
            if has_dev_fields then
              match readU8 "number of fields" rd with
              | .error e => .error e
              | .ok (ndevfields, rd) =>
                match decodeFieldDefs true 0 ndevfields rd with
                | .error e => .error e
                | .ok (devfield_defs, rd) =>
                  .ok ({ arch, global_mesg_num, nfields, field_defs,
                         ndevfields := some ndevfields,
                         devfield_defs := some devfield_defs }, rd)
            else
              .ok ({ arch, global_mesg_num, nfields, field_defs,
                     ndevfields := none, devfield_defs := none }, rd)

/-- A static field annotation of the generated profile table: the Rust
variant name, the Rust base- or profile-type name of the raw value, and
the scale, offset and units constants. -/
structure FieldSpec where
  variant : String
  ty : String
  scale : Option Rat
  offset : Option Rat
  units : Option String
deriving DecidableEq

/-- Field table of `FileId` (global message number 0), extracted arm-for-arm from its `decode` in src/profile/messages.rs. -/
def fieldsFileId : List (Nat × FieldSpec) :=
   [(0, ⟨"Type", "File", none, none, none⟩),
    (1, ⟨"Manufacturer", "Manufacturer", none, none, none⟩),
    (2, ⟨"Product", "Uint16", none, none, none⟩),
    (3, ⟨"SerialNumber", "Uint32z", none, none, none⟩),
    (4, ⟨"TimeCreated", "DateTime", none, none, none⟩),
    (5, ⟨"Number", "Uint16", none, none, none⟩),
    (8, ⟨"ProductName", "Utf8String", none, none, none⟩)]

/-- Field table of `FileCreator` (global message number 49), extracted arm-for-arm from its `decode` in src/profile/messages.rs. -/
def fieldsFileCreator : List (Nat × FieldSpec) :=
   [(0, ⟨"SoftwareVersion", "Uint16", none, none, none⟩),
    (1, ⟨"HardwareVersion", "Uint8", none, none, none⟩)]

/-- Field table of `TimestampCorrelation` (global message number 162), extracted arm-for-arm from its `decode` in src/profile/messages.rs. -/
def fieldsTimestampCorrelation : List (Nat × FieldSpec) :=
   [(253, ⟨"Timestamp", "DateTime", none, none, some "s"⟩),
    (0, ⟨"FractionalTimestamp", "Uint16", some 32768, none, some "s"⟩),
    (1, ⟨"SystemTimestamp", "DateTime", none, none, some "s"⟩),
    (2, ⟨"FractionalSystemTimestamp", "Uint16", some 32768, none, some "s"⟩),
    (3, ⟨"LocalTimestamp", "LocalDateTime", none, none, some "s"⟩),
    (4, ⟨"TimestampMs", "Uint16", none, none, some "ms"⟩),
    (5, ⟨"SystemTimestampMs", "Uint16", none, none, some "ms"⟩)]

/-- Field table of `Software` (global message number 35), extracted arm-for-arm from its `decode` in src/profile/messages.rs. -/
def fieldsSoftware : List (Nat × FieldSpec) :=
   [(254, ⟨"MessageIndex", "MessageIndex", none, none, none⟩),
    (3, ⟨"Version", "Uint16", some 100, none, none⟩),
    (5, ⟨"PartNumber", "Utf8String", none, none, none⟩)]

/-- Field table of `SlaveDevice` (global message number 106), extracted arm-for-arm from its `decode` in src/profile/messages.rs. -/
def fieldsSlaveDevice : List (Nat × FieldSpec) :=
   [(0, ⟨"Manufacturer", "Manufacturer", none, none, none⟩),
    (1, ⟨"Product", "Uint16", none, none, none⟩)]

/-- Field table of `Capabilities` (global message number 1), extracted arm-for-arm from its `decode` in src/profile/messages.rs. -/
def fieldsCapabilities : List (Nat × FieldSpec) :=
   [(0, ⟨"Languages", "Uint8z", none, none, none⟩),
    (1, ⟨"Sports", "SportBits0", none, none, none⟩),
    (21, ⟨"WorkoutsSupported", "WorkoutCapabilities", none, none, none⟩),
    (23, ⟨"ConnectivitySupported", "ConnectivityCapabilities", none, none, none⟩)]

/-- Field table of `FileCapabilities` (global message number 37), extracted arm-for-arm from its `decode` in src/profile/messages.rs. -/
def fieldsFileCapabilities : List (Nat × FieldSpec) :=
   [(254, ⟨"MessageIndex", "MessageIndex", none, none, none⟩),
    (0, ⟨"Type", "File", none, none, none⟩),
    (1, ⟨"Flags", "FileFlags", none, none, none⟩),
    (2, ⟨"Directory", "Utf8String", none, none, none⟩),
    (3, ⟨"MaxCount", "Uint16", none, none, none⟩),
    (4, ⟨"MaxSize", "Uint32", none, none, some "bytes"⟩)]

/-- Field table of `MesgCapabilities` (global message number 38), extracted arm-for-arm from its `decode` in src/profile/messages.rs. -/
def fieldsMesgCapabilities : List (Nat × FieldSpec) :=
   [(254, ⟨"MessageIndex", "MessageIndex", none, none, none⟩),
    (0, ⟨"File", "File", none, none, none⟩),
    (1, ⟨"MesgNum", "MesgNum", none, none, none⟩),
    (2, ⟨"CountType", "MesgCount", none, none, none⟩),
    (3, ⟨"Count", "Uint16", none, none, none⟩)]

/-- Field table of `FieldCapabilities` (global message number 39), extracted arm-for-arm from its `decode` in src/profile/messages.rs. -/
def fieldsFieldCapabilities : List (Nat × FieldSpec) :=
   [(254, ⟨"MessageIndex", "MessageIndex", none, none, none⟩),
    (0, ⟨"File", "File", none, none, none⟩),
    (1, ⟨"MesgNum", "MesgNum", none, none, none⟩),
    (2, ⟨"FieldNum", "Uint8", none, none, none⟩),
    (3, ⟨"Count", "Uint16", none, none, none⟩)]

/-- Field table of `DeviceSettings` (global message number 2), extracted arm-for-arm from its `decode` in src/profile/messages.rs. -/
def fieldsDeviceSettings : List (Nat × FieldSpec) :=
   [(0, ⟨"ActiveTimeZone", "Uint8", none, none, none⟩),
    (1, ⟨"UtcOffset", "Uint32", none, none, none⟩),
    (2, ⟨"TimeOffset", "Uint32", none, none, some "s"⟩),
    (4, ⟨"TimeMode", "TimeMode", none, none, none⟩),
    (5, ⟨"TimeZoneOffset", "Sint8", some 4, none, some "hr"⟩),
    (12, ⟨"BacklightMode", "BacklightMode", none, none, none⟩),
    (36, ⟨"ActivityTrackerEnabled", "Bool", none, none, none⟩),
    (39, ⟨"ClockTime", "DateTime", none, none, none⟩),
    (40, ⟨"PagesEnabled", "Uint16", none, none, none⟩),
    (46, ⟨"MoveAlertEnabled", "Bool", none, none, none⟩),
    (47, ⟨"DateMode", "DateMode", none, none, none⟩),
    (55, ⟨"DisplayOrientation", "DisplayOrientation", none, none, none⟩),
    (56, ⟨"MountingSide", "Side", none, none, none⟩),
    (57, ⟨"DefaultPage", "Uint16", none, none, none⟩),
    (58, ⟨"AutosyncMinSteps", "Uint16", none, none, some "steps"⟩),
    (59, ⟨"AutosyncMinTime", "Uint16", none, none, some "minutes"⟩)] ++
   [(80, ⟨"LactateThresholdAutodetectEnabled", "Bool", none, none, none⟩),
    (86, ⟨"BleAutoUploadEnabled", "Bool", none, none, none⟩),
    (89, ⟨"AutoSyncFrequency", "AutoSyncFrequency", none, none, none⟩),
    (90, ⟨"AutoActivityDetect", "AutoActivityDetect", none, none, none⟩),
    (94, ⟨"NumberOfScreens", "Uint8", none, none, none⟩),
    (95, ⟨"SmartNotificationDisplayOrientation", "DisplayOrientation", none, none, none⟩),
    (134, ⟨"TapInterface", "Switch", none, none, none⟩)]

/-- Field table of `UserProfile` (global message number 3), extracted arm-for-arm from its `decode` in src/profile/messages.rs. -/
def fieldsUserProfile : List (Nat × FieldSpec) :=
   [(254, ⟨"MessageIndex", "MessageIndex", none, none, none⟩),
    (0, ⟨"FriendlyName", "Utf8String", none, none, none⟩),
    (1, ⟨"Gender", "Gender", none, none, none⟩),
    (2, ⟨"Age", "Uint8", none, none, some "years"⟩),
    (3, ⟨"Height", "Uint8", some 100, none, some "m"⟩),
    (4, ⟨"Weight", "Uint16", some 10, none, some "kg"⟩),
    (5, ⟨"Language", "Language", none, none, none⟩),
    (6, ⟨"ElevSetting", "DisplayMeasure", none, none, none⟩),
    (7, ⟨"WeightSetting", "DisplayMeasure", none, none, none⟩),
    (8, ⟨"RestingHeartRate", "Uint8", none, none, some "bpm"⟩),
    (9, ⟨"DefaultMaxRunningHeartRate", "Uint8", none, none, some "bpm"⟩),
    (10, ⟨"DefaultMaxBikingHeartRate", "Uint8", none, none, some "bpm"⟩),
    (11, ⟨"DefaultMaxHeartRate", "Uint8", none, none, some "bpm"⟩),
    (12, ⟨"HrSetting", "DisplayHeart", none, none, none⟩),
    (13, ⟨"SpeedSetting", "DisplayMeasure", none, none, none⟩),
    (14, ⟨"DistSetting", "DisplayMeasure", none, none, none⟩)] ++
   [(16, ⟨"PowerSetting", "DisplayPower", none, none, none⟩),
    (17, ⟨"ActivityClass", "ActivityClass", none, none, none⟩),
    (18, ⟨"PositionSetting", "DisplayPosition", none, none, none⟩),
    (21, ⟨"TemperatureSetting", "DisplayMeasure", none, none, none⟩),
    (22, ⟨"LocalId", "UserLocalId", none, none, none⟩),
    (23, ⟨"GlobalId", "Bytes", none, none, none⟩),
    (28, ⟨"WakeTime", "LocaltimeIntoDay", none, none, none⟩),
    (29, ⟨"SleepTime", "LocaltimeIntoDay", none, none, none⟩),
    (30, ⟨"HeightSetting", "DisplayMeasure", none, none, none⟩),
    (31, ⟨"UserRunningStepLength", "Uint16", some 1000, none, some "m"⟩),
    (32, ⟨"UserWalkingStepLength", "Uint16", some 1000, none, some "m"⟩),
    (47, ⟨"DepthSetting", "DisplayMeasure", none, none, none⟩),
    (49, ⟨"DiveCount", "Uint32", none, none, none⟩)]

/-- Field table of `HrmProfile` (global message number 4), extracted arm-for-arm from its `decode` in src/profile/messages.rs. -/
def fieldsHrmProfile : List (Nat × FieldSpec) :=
   [(254, ⟨"MessageIndex", "MessageIndex", none, none, none⟩),
    (0, ⟨"Enabled", "Bool", none, none, none⟩),
    (1, ⟨"HrmAntId", "Uint16z", none, none, none⟩),
    (2, ⟨"LogHrv", "Bool", none, none, none⟩),
    (3, ⟨"HrmAntIdTransType", "Uint8z", none, none, none⟩)]

/-- Field table of `SdmProfile` (global message number 5), extracted arm-for-arm from its `decode` in src/profile/messages.rs. -/
def fieldsSdmProfile : List (Nat × FieldSpec) :=
   [(254, ⟨"MessageIndex", "MessageIndex", none, none, none⟩),
    (0, ⟨"Enabled", "Bool", none, none, none⟩),
    (1, ⟨"SdmAntId", "Uint16z", none, none, none⟩),
    (2, ⟨"SdmCalFactor", "Uint16", some 10, none, some "%"⟩),
    (3, ⟨"Odometer", "Uint32", some 100, none, some "m"⟩),
    (4, ⟨"SpeedSource", "Bool", none, none, none⟩),
    (5, ⟨"SdmAntIdTransType", "Uint8z", none, none, none⟩),
    (7, ⟨"OdometerRollover", "Uint8", none, none, none⟩)]

/-- Field table of `BikeProfile` (global message number 6), extracted arm-for-arm from its `decode` in src/profile/messages.rs. -/
def fieldsBikeProfile : List (Nat × FieldSpec) :=
   [(254, ⟨"MessageIndex", "MessageIndex", none, none, none⟩),
    (0, ⟨"Name", "Utf8String", none, none, none⟩),
    (1, ⟨"Sport", "Sport", none, none, none⟩),
    (2, ⟨"SubSport", "SubSport", none, none, none⟩),
    (3, ⟨"Odometer", "Uint32", some 100, none, some "m"⟩),
    (4, ⟨"BikeSpdAntId", "Uint16z", none, none, none⟩),
    (5, ⟨"BikeCadAntId", "Uint16z", none, none, none⟩),
    (6, ⟨"BikeSpdcadAntId", "Uint16z", none, none, none⟩),
    (7, ⟨"BikePowerAntId", "Uint16z", none, none, none⟩),
    (8, ⟨"CustomWheelsize", "Uint16", some 1000, none, some "m"⟩),
    (9, ⟨"AutoWheelsize", "Uint16", some 1000, none, some "m"⟩),
    (10, ⟨"BikeWeight", "Uint16", some 10, none, some "kg"⟩),
    (11, ⟨"PowerCalFactor", "Uint16", some 10, none, some "%"⟩),
    (12, ⟨"AutoWheelCal", "Bool", none, none, none⟩),
    (13, ⟨"AutoPowerZero", "Bool", none, none, none⟩),
    (14, ⟨"Id", "Uint8", none, none, none⟩)] ++
   [(15, ⟨"SpdEnabled", "Bool", none, none, none⟩),
    (16, ⟨"CadEnabled", "Bool", none, none, none⟩),
    (17, ⟨"SpdcadEnabled", "Bool", none, none, none⟩),
    (18, ⟨"PowerEnabled", "Bool", none, none, none⟩),
    (19, ⟨"CrankLength", "Uint8", some 2, none, some "mm"⟩),
    (20, ⟨"Enabled", "Bool", none, none, none⟩),
    (21, ⟨"BikeSpdAntIdTransType", "Uint8z", none, none, none⟩),
    (22, ⟨"BikeCadAntIdTransType", "Uint8z", none, none, none⟩),
    (23, ⟨"BikeSpdcadAntIdTransType", "Uint8z", none, none, none⟩),
    (24, ⟨"BikePowerAntIdTransType", "Uint8z", none, none, none⟩),
    (37, ⟨"OdometerRollover", "Uint8", none, none, none⟩),
    (38, ⟨"FrontGearNum", "Uint8z", none, none, none⟩),
    (39, ⟨"FrontGear", "Uint8z", none, none, none⟩),
    (40, ⟨"RearGearNum", "Uint8z", none, none, none⟩),
    (41, ⟨"RearGear", "Uint8z", none, none, none⟩),
    (44, ⟨"ShimanoDi2Enabled", "Bool", none, none, none⟩)]

/-- Field table of `Connectivity` (global message number 127), extracted arm-for-arm from its `decode` in src/profile/messages.rs. -/
def fieldsConnectivity : List (Nat × FieldSpec) :=
   [(0, ⟨"BluetoothEnabled", "Bool", none, none, none⟩),
    (1, ⟨"BluetoothLeEnabled", "Bool", none, none, none⟩),
    (2, ⟨"AntEnabled", "Bool", none, none, none⟩),
    (3, ⟨"Name", "Utf8String", none, none, none⟩),
    (4, ⟨"LiveTrackingEnabled", "Bool", none, none, none⟩),
    (5, ⟨"WeatherConditionsEnabled", "Bool", none, none, none⟩),
    (6, ⟨"WeatherAlertsEnabled", "Bool", none, none, none⟩),
    (7, ⟨"AutoActivityUploadEnabled", "Bool", none, none, none⟩),
    (8, ⟨"CourseDownloadEnabled", "Bool", none, none, none⟩),
    (9, ⟨"WorkoutDownloadEnabled", "Bool", none, none, none⟩),
    (10, ⟨"GpsEphemerisDownloadEnabled", "Bool", none, none, none⟩),
    (11, ⟨"IncidentDetectionEnabled", "Bool", none, none, none⟩),
    (12, ⟨"GrouptrackEnabled", "Bool", none, none, none⟩)]

/-- Field table of `WatchfaceSettings` (global message number 159), extracted arm-for-arm from its `decode` in src/profile/messages.rs. -/
def fieldsWatchfaceSettings : List (Nat × FieldSpec) :=
   [(254, ⟨"MessageIndex", "MessageIndex", none, none, none⟩),
    (0, ⟨"Mode", "WatchfaceMode", none, none, none⟩),
    (1, ⟨"Layout", "Bytes", none, none, none⟩)]

/-- Field table of `OhrSettings` (global message number 188), extracted arm-for-arm from its `decode` in src/profile/messages.rs. -/
def fieldsOhrSettings : List (Nat × FieldSpec) :=
   [(0, ⟨"Enabled", "Switch", none, none, none⟩)]

/-- Field table of `ZonesTarget` (global message number 7), extracted arm-for-arm from its `decode` in src/profile/messages.rs. -/
def fieldsZonesTarget : List (Nat × FieldSpec) :=
   [(1, ⟨"MaxHeartRate", "Uint8", none, none, none⟩),
    (2, ⟨"ThresholdHeartRate", "Uint8", none, none, none⟩),
    (3, ⟨"FunctionalThresholdPower", "Uint16", none, none, none⟩),
    (5, ⟨"HrCalcType", "HrZoneCalc", none, none, none⟩),
    (7, ⟨"PwrCalcType", "PwrZoneCalc", none, none, none⟩)]

/-- Field table of `Sport` (global message number 12), extracted arm-for-arm from its `decode` in src/profile/messages.rs. -/
def fieldsSport : List (Nat × FieldSpec) :=
   [(0, ⟨"Sport", "Sport", none, none, none⟩),
    (1, ⟨"SubSport", "SubSport", none, none, none⟩),
    (3, ⟨"Name", "Utf8String", none, none, none⟩)]

/-- Field table of `HrZone` (global message number 8), extracted arm-for-arm from its `decode` in src/profile/messages.rs. -/
def fieldsHrZone : List (Nat × FieldSpec) :=
   [(254, ⟨"MessageIndex", "MessageIndex", none, none, none⟩),
    (1, ⟨"HighBpm", "Uint8", none, none, some "bpm"⟩),
    (2, ⟨"Name", "Utf8String", none, none, none⟩)]

/-- Field table of `SpeedZone` (global message number 53), extracted arm-for-arm from its `decode` in src/profile/messages.rs. -/
def fieldsSpeedZone : List (Nat × FieldSpec) :=
   [(254, ⟨"MessageIndex", "MessageIndex", none, none, none⟩),
    (0, ⟨"HighValue", "Uint16", some 1000, none, some "m/s"⟩),
    (1, ⟨"Name", "Utf8String", none, none, none⟩)]

/-- Field table of `CadenceZone` (global message number 131), extracted arm-for-arm from its `decode` in src/profile/messages.rs. -/
def fieldsCadenceZone : List (Nat × FieldSpec) :=
   [(254, ⟨"MessageIndex", "MessageIndex", none, none, none⟩),
    (0, ⟨"HighValue", "Uint8", none, none, some "rpm"⟩),
    (1, ⟨"Name", "Utf8String", none, none, none⟩)]

/-- Field table of `PowerZone` (global message number 9), extracted arm-for-arm from its `decode` in src/profile/messages.rs. -/
def fieldsPowerZone : List (Nat × FieldSpec) :=
   [(254, ⟨"MessageIndex", "MessageIndex", none, none, none⟩),
    (1, ⟨"HighValue", "Uint16", none, none, some "watts"⟩),
    (2, ⟨"Name", "Utf8String", none, none, none⟩)]

/-- Field table of `MetZone` (global message number 10), extracted arm-for-arm from its `decode` in src/profile/messages.rs. -/
def fieldsMetZone : List (Nat × FieldSpec) :=
   [(254, ⟨"MessageIndex", "MessageIndex", none, none, none⟩),
    (1, ⟨"HighBpm", "Uint8", none, none, none⟩),
    (2, ⟨"Calories", "Uint16", some 10, none, some "kcal / min"⟩),
    (3, ⟨"FatCalories", "Uint8", some 10, none, some "kcal / min"⟩)]

/-- Field table of `DiveSettings` (global message number 258), extracted arm-for-arm from its `decode` in src/profile/messages.rs. -/
def fieldsDiveSettings : List (Nat × FieldSpec) :=
   [(254, ⟨"MessageIndex", "MessageIndex", none, none, none⟩),
    (0, ⟨"Name", "Utf8String", none, none, none⟩),
    (1, ⟨"Model", "TissueModelType", none, none, none⟩),
    (2, ⟨"GfLow", "Uint8", none, none, some "percent"⟩),
    (3, ⟨"GfHigh", "Uint8", none, none, some "percent"⟩),
    (4, ⟨"WaterType", "WaterType", none, none, none⟩),
    (5, ⟨"WaterDensity", "Float32", none, none, some "kg/m^3"⟩),
    (6, ⟨"Po2Warn", "Uint8", some 100, none, some "percent"⟩),
    (7, ⟨"Po2Critical", "Uint8", some 100, none, some "percent"⟩),
    (8, ⟨"Po2Deco", "Uint8", some 100, none, some "percent"⟩),
    (9, ⟨"SafetyStopEnabled", "Bool", none, none, none⟩),
    (10, ⟨"BottomDepth", "Float32", none, none, none⟩),
    (11, ⟨"BottomTime", "Uint32", none, none, none⟩),
    (12, ⟨"ApneaCountdownEnabled", "Bool", none, none, none⟩),
    (13, ⟨"ApneaCountdownTime", "Uint32", none, none, none⟩),
    (14, ⟨"BacklightMode", "DiveBacklightMode", none, none, none⟩)] ++
   [(15, ⟨"BacklightBrightness", "Uint8", none, none, none⟩),
    (16, ⟨"BacklightTimeout", "BacklightTimeout", none, none, none⟩),
    (17, ⟨"RepeatDiveInterval", "Uint16", some 1, none, some "s"⟩),
    (18, ⟨"SafetyStopTime", "Uint16", some 1, none, some "s"⟩),
    (19, ⟨"HeartRateSourceType", "SourceType", none, none, none⟩),
    (20, ⟨"HeartRateSource", "Uint8", none, none, none⟩)]

/-- Field table of `DiveAlarm` (global message number 262), extracted arm-for-arm from its `decode` in src/profile/messages.rs. -/
def fieldsDiveAlarm : List (Nat × FieldSpec) :=
   [(254, ⟨"MessageIndex", "MessageIndex", none, none, none⟩),
    (0, ⟨"Depth", "Uint32", some 1000, none, some "m"⟩),
    (1, ⟨"Time", "Sint32", some 1, none, some "s"⟩),
    (2, ⟨"Enabled", "Bool", none, none, none⟩),
    (3, ⟨"AlarmType", "DiveAlarmType", none, none, none⟩),
    (4, ⟨"Sound", "Tone", none, none, none⟩),
    (5, ⟨"DiveTypes", "SubSport", none, none, none⟩)]

/-- Field table of `DiveGas` (global message number 259), extracted arm-for-arm from its `decode` in src/profile/messages.rs. -/
def fieldsDiveGas : List (Nat × FieldSpec) :=
   [(254, ⟨"MessageIndex", "MessageIndex", none, none, none⟩),
    (0, ⟨"HeliumContent", "Uint8", none, none, some "percent"⟩),
    (1, ⟨"OxygenContent", "Uint8", none, none, some "percent"⟩),
    (2, ⟨"Status", "DiveGasStatus", none, none, none⟩)]

/-- Field table of `Goal` (global message number 15), extracted arm-for-arm from its `decode` in src/profile/messages.rs. -/
def fieldsGoal : List (Nat × FieldSpec) :=
   [(254, ⟨"MessageIndex", "MessageIndex", none, none, none⟩),
    (0, ⟨"Sport", "Sport", none, none, none⟩),
    (1, ⟨"SubSport", "SubSport", none, none, none⟩),
    (2, ⟨"StartDate", "DateTime", none, none, none⟩),
    (3, ⟨"EndDate", "DateTime", none, none, none⟩),
    (4, ⟨"Type", "Goal", none, none, none⟩),
    (5, ⟨"Value", "Uint32", none, none, none⟩),
    (6, ⟨"Repeat", "Bool", none, none, none⟩),
    (7, ⟨"TargetValue", "Uint32", none, none, none⟩),
    (8, ⟨"Recurrence", "GoalRecurrence", none, none, none⟩),
    (9, ⟨"RecurrenceValue", "Uint16", none, none, none⟩),
    (10, ⟨"Enabled", "Bool", none, none, none⟩),
    (11, ⟨"Source", "GoalSource", none, none, none⟩)]

/-- Field table of `Activity` (global message number 34), extracted arm-for-arm from its `decode` in src/profile/messages.rs. -/
def fieldsActivity : List (Nat × FieldSpec) :=
   [(253, ⟨"Timestamp", "DateTime", none, none, none⟩),
    (0, ⟨"TotalTimerTime", "Uint32", some 1000, none, some "s"⟩),
    (1, ⟨"NumSessions", "Uint16", none, none, none⟩),
    (2, ⟨"Type", "Activity", none, none, none⟩),
    (3, ⟨"Event", "Event", none, none, none⟩),
    (4, ⟨"EventType", "EventType", none, none, none⟩),
    (5, ⟨"LocalTimestamp", "LocalDateTime", none, none, none⟩),
    (6, ⟨"EventGroup", "Uint8", none, none, none⟩)]

/-- Field table of `Session` (global message number 18), extracted arm-for-arm from its `decode` in src/profile/messages.rs. -/
def fieldsSession : List (Nat × FieldSpec) :=
   [(254, ⟨"MessageIndex", "MessageIndex", none, none, none⟩),
    (253, ⟨"Timestamp", "DateTime", none, none, some "s"⟩),
    (0, ⟨"Event", "Event", none, none, none⟩),
    (1, ⟨"EventType", "EventType", none, none, none⟩),
    (2, ⟨"StartTime", "DateTime", none, none, none⟩),
    (3, ⟨"StartPositionLat", "Sint32", none, none, some "semicircles"⟩),
    (4, ⟨"StartPositionLong", "Sint32", none, none, some "semicircles"⟩),
    (5, ⟨"Sport", "Sport", none, none, none⟩),
    (6, ⟨"SubSport", "SubSport", none, none, none⟩),
    (7, ⟨"TotalElapsedTime", "Uint32", some 1000, none, some "s"⟩),
    (8, ⟨"TotalTimerTime", "Uint32", some 1000, none, some "s"⟩),
    (9, ⟨"TotalDistance", "Uint32", some 100, none, some "m"⟩),
    (10, ⟨"TotalCycles", "Uint32", none, none, some "cycles"⟩),
    (11, ⟨"TotalCalories", "Uint16", none, none, some "kcal"⟩),
    (13, ⟨"TotalFatCalories", "Uint16", none, none, some "kcal"⟩),
    (14, ⟨"AvgSpeed", "Uint16", some 1000, none, some "m/s"⟩)] ++
   [(15, ⟨"MaxSpeed", "Uint16", some 1000, none, some "m/s"⟩),
    (16, ⟨"AvgHeartRate", "Uint8", none, none, some "bpm"⟩),
    (17, ⟨"MaxHeartRate", "Uint8", none, none, some "bpm"⟩),
    (18, ⟨"AvgCadence", "Uint8", none, none, some "rpm"⟩),
    (19, ⟨"MaxCadence", "Uint8", none, none, some "rpm"⟩),
    (20, ⟨"AvgPower", "Uint16", none, none, some "watts"⟩),
    (21, ⟨"MaxPower", "Uint16", none, none, some "watts"⟩),
    (22, ⟨"TotalAscent", "Uint16", none, none, some "m"⟩),
    (23, ⟨"TotalDescent", "Uint16", none, none, some "m"⟩),
    (24, ⟨"TotalTrainingEffect", "Uint8", some 10, none, none⟩),
    (25, ⟨"FirstLapIndex", "Uint16", none, none, none⟩),
    (26, ⟨"NumLaps", "Uint16", none, none, none⟩),
    (27, ⟨"EventGroup", "Uint8", none, none, none⟩),
    (28, ⟨"Trigger", "SessionTrigger", none, none, none⟩),
    (29, ⟨"NecLat", "Sint32", none, none, some "semicircles"⟩),
    (30, ⟨"NecLong", "Sint32", none, none, some "semicircles"⟩)] ++
   [(31, ⟨"SwcLat", "Sint32", none, none, some "semicircles"⟩),
    (32, ⟨"SwcLong", "Sint32", none, none, some "semicircles"⟩),
    (34, ⟨"NormalizedPower", "Uint16", none, none, some "watts"⟩),
    (35, ⟨"TrainingStressScore", "Uint16", some 10, none, some "tss"⟩),
    (36, ⟨"IntensityFactor", "Uint16", some 1000, none, some "if"⟩),
    (37, ⟨"LeftRightBalance", "LeftRightBalance100", none, none, none⟩),
    (41, ⟨"AvgStrokeCount", "Uint32", some 10, none, some "strokes/lap"⟩),
    (42, ⟨"AvgStrokeDistance", "Uint16", some 100, none, some "m"⟩),
    (43, ⟨"SwimStroke", "SwimStroke", none, none, some "swim_stroke"⟩),
    (44, ⟨"PoolLength", "Uint16", some 100, none, some "m"⟩),
    (45, ⟨"ThresholdPower", "Uint16", none, none, some "watts"⟩),
    (46, ⟨"PoolLengthUnit", "DisplayMeasure", none, none, none⟩),
    (47, ⟨"NumActiveLengths", "Uint16", none, none, some "lengths"⟩),
    (48, ⟨"TotalWork", "Uint32", none, none, some "J"⟩),
    (49, ⟨"AvgAltitude", "Uint16", some 5, some 500, some "m"⟩),
    (50, ⟨"MaxAltitude", "Uint16", some 5, some 500, some "m"⟩)] ++
   [(51, ⟨"GpsAccuracy", "Uint8", none, none, some "m"⟩),
    (52, ⟨"AvgGrade", "Sint16", some 100, none, some "%"⟩),
    (53, ⟨"AvgPosGrade", "Sint16", some 100, none, some "%"⟩),
    (54, ⟨"AvgNegGrade", "Sint16", some 100, none, some "%"⟩),
    (55, ⟨"MaxPosGrade", "Sint16", some 100, none, some "%"⟩),
    (56, ⟨"MaxNegGrade", "Sint16", some 100, none, some "%"⟩),
    (57, ⟨"AvgTemperature", "Sint8", none, none, some "C"⟩),
    (58, ⟨"MaxTemperature", "Sint8", none, none, some "C"⟩),
    (59, ⟨"TotalMovingTime", "Uint32", some 1000, none, some "s"⟩),
    (60, ⟨"AvgPosVerticalSpeed", "Sint16", some 1000, none, some "m/s"⟩),
    (61, ⟨"AvgNegVerticalSpeed", "Sint16", some 1000, none, some "m/s"⟩),
    (62, ⟨"MaxPosVerticalSpeed", "Sint16", some 1000, none, some "m/s"⟩),
    (63, ⟨"MaxNegVerticalSpeed", "Sint16", some 1000, none, some "m/s"⟩),
    (64, ⟨"MinHeartRate", "Uint8", none, none, some "bpm"⟩),
    (65, ⟨"TimeInHrZone", "Uint32", some 1000, none, some "s"⟩),
    (66, ⟨"TimeInSpeedZone", "Uint32", some 1000, none, some "s"⟩)] ++
   [(67, ⟨"TimeInCadenceZone", "Uint32", some 1000, none, some "s"⟩),
    (68, ⟨"TimeInPowerZone", "Uint32", some 1000, none, some "s"⟩),
    (69, ⟨"AvgLapTime", "Uint32", some 1000, none, some "s"⟩),
    (70, ⟨"BestLapIndex", "Uint16", none, none, none⟩),
    (71, ⟨"MinAltitude", "Uint16", some 5, some 500, some "m"⟩),
    (82, ⟨"PlayerScore", "Uint16", none, none, none⟩),
    (83, ⟨"OpponentScore", "Uint16", none, none, none⟩),
    (84, ⟨"OpponentName", "Utf8String", none, none, none⟩),
    (85, ⟨"StrokeCount", "Uint16", none, none, some "counts"⟩),
    (86, ⟨"ZoneCount", "Uint16", none, none, some "counts"⟩),
    (87, ⟨"MaxBallSpeed", "Uint16", some 100, none, some "m/s"⟩),
    (88, ⟨"AvgBallSpeed", "Uint16", some 100, none, some "m/s"⟩),
    (89, ⟨"AvgVerticalOscillation", "Uint16", some 10, none, some "mm"⟩),
    (90, ⟨"AvgStanceTimePercent", "Uint16", some 100, none, some "percent"⟩),
    (91, ⟨"AvgStanceTime", "Uint16", some 10, none, some "ms"⟩),
    (92, ⟨"AvgFractionalCadence", "Uint8", some 128, none, some "rpm"⟩)] ++
   [(93, ⟨"MaxFractionalCadence", "Uint8", some 128, none, some "rpm"⟩),
    (94, ⟨"TotalFractionalCycles", "Uint8", some 128, none, some "cycles"⟩),
    (95, ⟨"AvgTotalHemoglobinConc", "Uint16", some 100, none, some "g/dL"⟩),
    (96, ⟨"MinTotalHemoglobinConc", "Uint16", some 100, none, some "g/dL"⟩),
    (97, ⟨"MaxTotalHemoglobinConc", "Uint16", some 100, none, some "g/dL"⟩),
    (98, ⟨"AvgSaturatedHemoglobinPercent", "Uint16", some 10, none, some "%"⟩),
    (99, ⟨"MinSaturatedHemoglobinPercent", "Uint16", some 10, none, some "%"⟩),
    (100, ⟨"MaxSaturatedHemoglobinPercent", "Uint16", some 10, none, some "%"⟩),
    (101, ⟨"AvgLeftTorqueEffectiveness", "Uint8", some 2, none, some "percent"⟩),
    (102, ⟨"AvgRightTorqueEffectiveness", "Uint8", some 2, none, some "percent"⟩),
    (103, ⟨"AvgLeftPedalSmoothness", "Uint8", some 2, none, some "percent"⟩),
    (104, ⟨"AvgRightPedalSmoothness", "Uint8", some 2, none, some "percent"⟩),
    (105, ⟨"AvgCombinedPedalSmoothness", "Uint8", some 2, none, some "percent"⟩),
    (111, ⟨"SportIndex", "Uint8", none, none, none⟩),
    (112, ⟨"TimeStanding", "Uint32", some 1000, none, some "s"⟩),
    (113, ⟨"StandCount", "Uint16", none, none, none⟩)] ++
   [(114, ⟨"AvgLeftPco", "Sint8", none, none, some "mm"⟩),
    (115, ⟨"AvgRightPco", "Sint8", none, none, some "mm"⟩),
    (116, ⟨"AvgLeftPowerPhase", "Uint8", some (7111111 / 10000000 : Rat), none, some "degrees"⟩),
    (117, ⟨"AvgLeftPowerPhasePeak", "Uint8", some (7111111 / 10000000 : Rat), none, some "degrees"⟩),
    (118, ⟨"AvgRightPowerPhase", "Uint8", some (7111111 / 10000000 : Rat), none, some "degrees"⟩),
    (119, ⟨"AvgRightPowerPhasePeak", "Uint8", some (7111111 / 10000000 : Rat), none, some "degrees"⟩),
    (120, ⟨"AvgPowerPosition", "Uint16", none, none, some "watts"⟩),
    (121, ⟨"MaxPowerPosition", "Uint16", none, none, some "watts"⟩),
    (122, ⟨"AvgCadencePosition", "Uint8", none, none, some "rpm"⟩),
    (123, ⟨"MaxCadencePosition", "Uint8", none, none, some "rpm"⟩),
    (124, ⟨"EnhancedAvgSpeed", "Uint32", some 1000, none, some "m/s"⟩),
    (125, ⟨"EnhancedMaxSpeed", "Uint32", some 1000, none, some "m/s"⟩),
    (126, ⟨"EnhancedAvgAltitude", "Uint32", some 5, some 500, some "m"⟩),
    (127, ⟨"EnhancedMinAltitude", "Uint32", some 5, some 500, some "m"⟩),
    (128, ⟨"EnhancedMaxAltitude", "Uint32", some 5, some 500, some "m"⟩),
    (129, ⟨"AvgLevMotorPower", "Uint16", none, none, some "watts"⟩)] ++
   [(130, ⟨"MaxLevMotorPower", "Uint16", none, none, some "watts"⟩),
    (131, ⟨"LevBatteryConsumption", "Uint8", some 2, none, some "percent"⟩),
    (132, ⟨"AvgVerticalRatio", "Uint16", some 100, none, some "percent"⟩),
    (133, ⟨"AvgStanceTimeBalance", "Uint16", some 100, none, some "percent"⟩),
    (134, ⟨"AvgStepLength", "Uint16", some 10, none, some "mm"⟩),
    (137, ⟨"TotalAnaerobicTrainingEffect", "Uint8", some 10, none, none⟩),
    (139, ⟨"AvgVam", "Uint16", some 1000, none, some "m/s"⟩)]

/-- Field table of `Lap` (global message number 19), extracted arm-for-arm from its `decode` in src/profile/messages.rs. -/
def fieldsLap : List (Nat × FieldSpec) :=
   [(254, ⟨"MessageIndex", "MessageIndex", none, none, none⟩),
    (253, ⟨"Timestamp", "DateTime", none, none, some "s"⟩),
    (0, ⟨"Event", "Event", none, none, none⟩),
    (1, ⟨"EventType", "EventType", none, none, none⟩),
    (2, ⟨"StartTime", "DateTime", none, none, none⟩),
    (3, ⟨"StartPositionLat", "Sint32", none, none, some "semicircles"⟩),
    (4, ⟨"StartPositionLong", "Sint32", none, none, some "semicircles"⟩),
    (5, ⟨"EndPositionLat", "Sint32", none, none, some "semicircles"⟩),
    (6, ⟨"EndPositionLong", "Sint32", none, none, some "semicircles"⟩),
    (7, ⟨"TotalElapsedTime", "Uint32", some 1000, none, some "s"⟩),
    (8, ⟨"TotalTimerTime", "Uint32", some 1000, none, some "s"⟩),
    (9, ⟨"TotalDistance", "Uint32", some 100, none, some "m"⟩),
    (10, ⟨"TotalCycles", "Uint32", none, none, some "cycles"⟩),
    (11, ⟨"TotalCalories", "Uint16", none, none, some "kcal"⟩),
    (12, ⟨"TotalFatCalories", "Uint16", none, none, some "kcal"⟩),
    (13, ⟨"AvgSpeed", "Uint16", some 1000, none, some "m/s"⟩)] ++
   [(14, ⟨"MaxSpeed", "Uint16", some 1000, none, some "m/s"⟩),
    (15, ⟨"AvgHeartRate", "Uint8", none, none, some "bpm"⟩),
    (16, ⟨"MaxHeartRate", "Uint8", none, none, some "bpm"⟩),
    (17, ⟨"AvgCadence", "Uint8", none, none, some "rpm"⟩),
    (18, ⟨"MaxCadence", "Uint8", none, none, some "rpm"⟩),
    (19, ⟨"AvgPower", "Uint16", none, none, some "watts"⟩),
    (20, ⟨"MaxPower", "Uint16", none, none, some "watts"⟩),
    (21, ⟨"TotalAscent", "Uint16", none, none, some "m"⟩),
    (22, ⟨"TotalDescent", "Uint16", none, none, some "m"⟩),
    (23, ⟨"Intensity", "Intensity", none, none, none⟩),
    (24, ⟨"LapTrigger", "LapTrigger", none, none, none⟩),
    (25, ⟨"Sport", "Sport", none, none, none⟩),
    (26, ⟨"EventGroup", "Uint8", none, none, none⟩),
    (32, ⟨"NumLengths", "Uint16", none, none, some "lengths"⟩),
    (33, ⟨"NormalizedPower", "Uint16", none, none, some "watts"⟩),
    (34, ⟨"LeftRightBalance", "LeftRightBalance100", none, none, none⟩)] ++
   [(35, ⟨"FirstLengthIndex", "Uint16", none, none, none⟩),
    (37, ⟨"AvgStrokeDistance", "Uint16", some 100, none, some "m"⟩),
    (38, ⟨"SwimStroke", "SwimStroke", none, none, none⟩),
    (39, ⟨"SubSport", "SubSport", none, none, none⟩),
    (40, ⟨"NumActiveLengths", "Uint16", none, none, some "lengths"⟩),
    (41, ⟨"TotalWork", "Uint32", none, none, some "J"⟩),
    (42, ⟨"AvgAltitude", "Uint16", some 5, some 500, some "m"⟩),
    (43, ⟨"MaxAltitude", "Uint16", some 5, some 500, some "m"⟩),
    (44, ⟨"GpsAccuracy", "Uint8", none, none, some "m"⟩),
    (45, ⟨"AvgGrade", "Sint16", some 100, none, some "%"⟩),
    (46, ⟨"AvgPosGrade", "Sint16", some 100, none, some "%"⟩),
    (47, ⟨"AvgNegGrade", "Sint16", some 100, none, some "%"⟩),
    (48, ⟨"MaxPosGrade", "Sint16", some 100, none, some "%"⟩),
    (49, ⟨"MaxNegGrade", "Sint16", some 100, none, some "%"⟩),
    (50, ⟨"AvgTemperature", "Sint8", none, none, some "C"⟩),
    (51, ⟨"MaxTemperature", "Sint8", none, none, some "C"⟩)] ++
   [(52, ⟨"TotalMovingTime", "Uint32", some 1000, none, some "s"⟩),
    (53, ⟨"AvgPosVerticalSpeed", "Sint16", some 1000, none, some "m/s"⟩),
    (54, ⟨"AvgNegVerticalSpeed", "Sint16", some 1000, none, some "m/s"⟩),
    (55, ⟨"MaxPosVerticalSpeed", "Sint16", some 1000, none, some "m/s"⟩),
    (56, ⟨"MaxNegVerticalSpeed", "Sint16", some 1000, none, some "m/s"⟩),
    (57, ⟨"TimeInHrZone", "Uint32", some 1000, none, some "s"⟩),
    (58, ⟨"TimeInSpeedZone", "Uint32", some 1000, none, some "s"⟩),
    (59, ⟨"TimeInCadenceZone", "Uint32", some 1000, none, some "s"⟩),
    (60, ⟨"TimeInPowerZone", "Uint32", some 1000, none, some "s"⟩),
    (61, ⟨"RepetitionNum", "Uint16", none, none, none⟩),
    (62, ⟨"MinAltitude", "Uint16", some 5, some 500, some "m"⟩),
    (63, ⟨"MinHeartRate", "Uint8", none, none, some "bpm"⟩),
    (71, ⟨"WktStepIndex", "MessageIndex", none, none, none⟩),
    (74, ⟨"OpponentScore", "Uint16", none, none, none⟩),
    (75, ⟨"StrokeCount", "Uint16", none, none, some "counts"⟩),
    (76, ⟨"ZoneCount", "Uint16", none, none, some "counts"⟩)] ++
   [(77, ⟨"AvgVerticalOscillation", "Uint16", some 10, none, some "mm"⟩),
    (78, ⟨"AvgStanceTimePercent", "Uint16", some 100, none, some "percent"⟩),
    (79, ⟨"AvgStanceTime", "Uint16", some 10, none, some "ms"⟩),
    (80, ⟨"AvgFractionalCadence", "Uint8", some 128, none, some "rpm"⟩),
    (81, ⟨"MaxFractionalCadence", "Uint8", some 128, none, some "rpm"⟩),
    (82, ⟨"TotalFractionalCycles", "Uint8", some 128, none, some "cycles"⟩),
    (83, ⟨"PlayerScore", "Uint16", none, none, none⟩),
    (84, ⟨"AvgTotalHemoglobinConc", "Uint16", some 100, none, some "g/dL"⟩),
    (85, ⟨"MinTotalHemoglobinConc", "Uint16", some 100, none, some "g/dL"⟩),
    (86, ⟨"MaxTotalHemoglobinConc", "Uint16", some 100, none, some "g/dL"⟩),
    (87, ⟨"AvgSaturatedHemoglobinPercent", "Uint16", some 10, none, some "%"⟩),
    (88, ⟨"MinSaturatedHemoglobinPercent", "Uint16", some 10, none, some "%"⟩),
    (89, ⟨"MaxSaturatedHemoglobinPercent", "Uint16", some 10, none, some "%"⟩),
    (91, ⟨"AvgLeftTorqueEffectiveness", "Uint8", some 2, none, some "percent"⟩),
    (92, ⟨"AvgRightTorqueEffectiveness", "Uint8", some 2, none, some "percent"⟩),
    (93, ⟨"AvgLeftPedalSmoothness", "Uint8", some 2, none, some "percent"⟩)] ++
   [(94, ⟨"AvgRightPedalSmoothness", "Uint8", some 2, none, some "percent"⟩),
    (95, ⟨"AvgCombinedPedalSmoothness", "Uint8", some 2, none, some "percent"⟩),
    (98, ⟨"TimeStanding", "Uint32", some 1000, none, some "s"⟩),
    (99, ⟨"StandCount", "Uint16", none, none, none⟩),
    (100, ⟨"AvgLeftPco", "Sint8", none, none, some "mm"⟩),
    (101, ⟨"AvgRightPco", "Sint8", none, none, some "mm"⟩),
    (102, ⟨"AvgLeftPowerPhase", "Uint8", some (7111111 / 10000000 : Rat), none, some "degrees"⟩),
    (103, ⟨"AvgLeftPowerPhasePeak", "Uint8", some (7111111 / 10000000 : Rat), none, some "degrees"⟩),
    (104, ⟨"AvgRightPowerPhase", "Uint8", some (7111111 / 10000000 : Rat), none, some "degrees"⟩),
    (105, ⟨"AvgRightPowerPhasePeak", "Uint8", some (7111111 / 10000000 : Rat), none, some "degrees"⟩),
    (106, ⟨"AvgPowerPosition", "Uint16", none, none, some "watts"⟩),
    (107, ⟨"MaxPowerPosition", "Uint16", none, none, some "watts"⟩),
    (108, ⟨"AvgCadencePosition", "Uint8", none, none, some "rpm"⟩),
    (109, ⟨"MaxCadencePosition", "Uint8", none, none, some "rpm"⟩),
    (110, ⟨"EnhancedAvgSpeed", "Uint32", some 1000, none, some "m/s"⟩),
    (111, ⟨"EnhancedMaxSpeed", "Uint32", some 1000, none, some "m/s"⟩)] ++
   [(112, ⟨"EnhancedAvgAltitude", "Uint32", some 5, some 500, some "m"⟩),
    (113, ⟨"EnhancedMinAltitude", "Uint32", some 5, some 500, some "m"⟩),
    (114, ⟨"EnhancedMaxAltitude", "Uint32", some 5, some 500, some "m"⟩),
    (115, ⟨"AvgLevMotorPower", "Uint16", none, none, some "watts"⟩),
    (116, ⟨"MaxLevMotorPower", "Uint16", none, none, some "watts"⟩),
    (117, ⟨"LevBatteryConsumption", "Uint8", some 2, none, some "percent"⟩),
    (118, ⟨"AvgVerticalRatio", "Uint16", some 100, none, some "percent"⟩),
    (119, ⟨"AvgStanceTimeBalance", "Uint16", some 100, none, some "percent"⟩),
    (120, ⟨"AvgStepLength", "Uint16", some 10, none, some "mm"⟩),
    (121, ⟨"AvgVam", "Uint16", some 1000, none, some "m/s"⟩)]

/-- Field table of `Length` (global message number 101), extracted arm-for-arm from its `decode` in src/profile/messages.rs. -/
def fieldsLength : List (Nat × FieldSpec) :=
   [(254, ⟨"MessageIndex", "MessageIndex", none, none, none⟩),
    (253, ⟨"Timestamp", "DateTime", none, none, none⟩),
    (0, ⟨"Event", "Event", none, none, none⟩),
    (1, ⟨"EventType", "EventType", none, none, none⟩),
    (2, ⟨"StartTime", "DateTime", none, none, none⟩),
    (3, ⟨"TotalElapsedTime", "Uint32", some 1000, none, some "s"⟩),
    (4, ⟨"TotalTimerTime", "Uint32", some 1000, none, some "s"⟩),
    (5, ⟨"TotalStrokes", "Uint16", none, none, some "strokes"⟩),
    (6, ⟨"AvgSpeed", "Uint16", some 1000, none, some "m/s"⟩),
    (7, ⟨"SwimStroke", "SwimStroke", none, none, some "swim_stroke"⟩),
    (9, ⟨"AvgSwimmingCadence", "Uint8", none, none, some "strokes/min"⟩),
    (10, ⟨"EventGroup", "Uint8", none, none, none⟩),
    (11, ⟨"TotalCalories", "Uint16", none, none, some "kcal"⟩),
    (12, ⟨"LengthType", "LengthType", none, none, none⟩),
    (18, ⟨"PlayerScore", "Uint16", none, none, none⟩),
    (19, ⟨"OpponentScore", "Uint16", none, none, none⟩)] ++
   [(20, ⟨"StrokeCount", "Uint16", none, none, some "counts"⟩),
    (21, ⟨"ZoneCount", "Uint16", none, none, some "counts"⟩)]

/-- Field table of `Record` (global message number 20), extracted arm-for-arm from its `decode` in src/profile/messages.rs. -/
def fieldsRecord : List (Nat × FieldSpec) :=
   [(253, ⟨"Timestamp", "DateTime", none, none, some "s"⟩),
    (0, ⟨"PositionLat", "Sint32", none, none, some "semicircles"⟩),
    (1, ⟨"PositionLong", "Sint32", none, none, some "semicircles"⟩),
    (2, ⟨"Altitude", "Uint16", some 5, some 500, some "m"⟩),
    (3, ⟨"HeartRate", "Uint8", none, none, some "bpm"⟩),
    (4, ⟨"Cadence", "Uint8", none, none, some "rpm"⟩),
    (5, ⟨"Distance", "Uint32", some 100, none, some "m"⟩),
    (6, ⟨"Speed", "Uint16", some 1000, none, some "m/s"⟩),
    (7, ⟨"Power", "Uint16", none, none, some "watts"⟩),
    (8, ⟨"CompressedSpeedDistance", "Bytes", none, none, some "m/s,\r\nm"⟩),
    (9, ⟨"Grade", "Sint16", some 100, none, some "%"⟩),
    (10, ⟨"Resistance", "Uint8", none, none, none⟩),
    (11, ⟨"TimeFromCourse", "Sint32", some 1000, none, some "s"⟩),
    (12, ⟨"CycleLength", "Uint8", some 100, none, some "m"⟩),
    (13, ⟨"Temperature", "Sint8", none, none, some "C"⟩),
    (17, ⟨"Speed1S", "Uint8", some 16, none, some "m/s"⟩)] ++
   [(18, ⟨"Cycles", "Uint8", none, none, some "cycles"⟩),
    (19, ⟨"TotalCycles", "Uint32", none, none, some "cycles"⟩),
    (28, ⟨"CompressedAccumulatedPower", "Uint16", none, none, some "watts"⟩),
    (29, ⟨"AccumulatedPower", "Uint32", none, none, some "watts"⟩),
    (30, ⟨"LeftRightBalance", "LeftRightBalance", none, none, none⟩),
    (31, ⟨"GpsAccuracy", "Uint8", none, none, some "m"⟩),
    (32, ⟨"VerticalSpeed", "Sint16", some 1000, none, some "m/s"⟩),
    (33, ⟨"Calories", "Uint16", none, none, some "kcal"⟩),
    (39, ⟨"VerticalOscillation", "Uint16", some 10, none, some "mm"⟩),
    (40, ⟨"StanceTimePercent", "Uint16", some 100, none, some "percent"⟩),
    (41, ⟨"StanceTime", "Uint16", some 10, none, some "ms"⟩),
    (42, ⟨"ActivityType", "ActivityType", none, none, none⟩),
    (43, ⟨"LeftTorqueEffectiveness", "Uint8", some 2, none, some "percent"⟩),
    (44, ⟨"RightTorqueEffectiveness", "Uint8", some 2, none, some "percent"⟩),
    (45, ⟨"LeftPedalSmoothness", "Uint8", some 2, none, some "percent"⟩),
    (46, ⟨"RightPedalSmoothness", "Uint8", some 2, none, some "percent"⟩)] ++
   [(47, ⟨"CombinedPedalSmoothness", "Uint8", some 2, none, some "percent"⟩),
    (48, ⟨"Time128", "Uint8", some 128, none, some "s"⟩),
    (49, ⟨"StrokeType", "StrokeType", none, none, none⟩),
    (50, ⟨"Zone", "Uint8", none, none, none⟩),
    (51, ⟨"BallSpeed", "Uint16", some 100, none, some "m/s"⟩),
    (52, ⟨"Cadence256", "Uint16", some 256, none, some "rpm"⟩),
    (53, ⟨"FractionalCadence", "Uint8", some 128, none, some "rpm"⟩),
    (54, ⟨"TotalHemoglobinConc", "Uint16", some 100, none, some "g/dL"⟩),
    (55, ⟨"TotalHemoglobinConcMin", "Uint16", some 100, none, some "g/dL"⟩),
    (56, ⟨"TotalHemoglobinConcMax", "Uint16", some 100, none, some "g/dL"⟩),
    (57, ⟨"SaturatedHemoglobinPercent", "Uint16", some 10, none, some "%"⟩),
    (58, ⟨"SaturatedHemoglobinPercentMin", "Uint16", some 10, none, some "%"⟩),
    (59, ⟨"SaturatedHemoglobinPercentMax", "Uint16", some 10, none, some "%"⟩),
    (62, ⟨"DeviceIndex", "DeviceIndex", none, none, none⟩),
    (67, ⟨"LeftPco", "Sint8", none, none, some "mm"⟩),
    (68, ⟨"RightPco", "Sint8", none, none, some "mm"⟩)] ++
   [(69, ⟨"LeftPowerPhase", "Uint8", some (7111111 / 10000000 : Rat), none, some "degrees"⟩),
    (70, ⟨"LeftPowerPhasePeak", "Uint8", some (7111111 / 10000000 : Rat), none, some "degrees"⟩),
    (71, ⟨"RightPowerPhase", "Uint8", some (7111111 / 10000000 : Rat), none, some "degrees"⟩),
    (72, ⟨"RightPowerPhasePeak", "Uint8", some (7111111 / 10000000 : Rat), none, some "degrees"⟩),
    (73, ⟨"EnhancedSpeed", "Uint32", some 1000, none, some "m/s"⟩),
    (78, ⟨"EnhancedAltitude", "Uint32", some 5, some 500, some "m"⟩),
    (81, ⟨"BatterySoc", "Uint8", some 2, none, some "percent"⟩),
    (82, ⟨"MotorPower", "Uint16", none, none, some "watts"⟩),
    (83, ⟨"VerticalRatio", "Uint16", some 100, none, some "percent"⟩),
    (84, ⟨"StanceTimeBalance", "Uint16", some 100, none, some "percent"⟩),
    (85, ⟨"StepLength", "Uint16", some 10, none, some "mm"⟩),
    (91, ⟨"AbsolutePressure", "Uint32", none, none, some "Pa"⟩),
    (92, ⟨"Depth", "Uint32", some 1000, none, some "m"⟩),
    (93, ⟨"NextStopDepth", "Uint32", some 1000, none, some "m"⟩),
    (94, ⟨"NextStopTime", "Uint32", some 1, none, some "s"⟩),
    (95, ⟨"TimeToSurface", "Uint32", some 1, none, some "s"⟩)] ++
   [(96, ⟨"NdlTime", "Uint32", some 1, none, some "s"⟩),
    (97, ⟨"CnsLoad", "Uint8", none, none, some "percent"⟩),
    (98, ⟨"N2Load", "Uint16", some 1, none, some "percent"⟩)]

/-- Field table of `Event` (global message number 21), extracted arm-for-arm from its `decode` in src/profile/messages.rs. -/
def fieldsEvent : List (Nat × FieldSpec) :=
   [(253, ⟨"Timestamp", "DateTime", none, none, some "s"⟩),
    (0, ⟨"Event", "Event", none, none, none⟩),
    (1, ⟨"EventType", "EventType", none, none, none⟩),
    (2, ⟨"Data16", "Uint16", none, none, none⟩),
    (3, ⟨"Data", "Uint32", none, none, none⟩),
    (4, ⟨"EventGroup", "Uint8", none, none, none⟩),
    (7, ⟨"Score", "Uint16", none, none, none⟩),
    (8, ⟨"OpponentScore", "Uint16", none, none, none⟩),
    (9, ⟨"FrontGearNum", "Uint8z", none, none, none⟩),
    (10, ⟨"FrontGear", "Uint8z", none, none, none⟩),
    (11, ⟨"RearGearNum", "Uint8z", none, none, none⟩),
    (12, ⟨"RearGear", "Uint8z", none, none, none⟩),
    (13, ⟨"DeviceIndex", "DeviceIndex", none, none, none⟩)]

/-- Field table of `DeviceInfo` (global message number 23), extracted arm-for-arm from its `decode` in src/profile/messages.rs. -/
def fieldsDeviceInfo : List (Nat × FieldSpec) :=
   [(253, ⟨"Timestamp", "DateTime", none, none, some "s"⟩),
    (0, ⟨"DeviceIndex", "DeviceIndex", none, none, none⟩),
    (1, ⟨"DeviceType", "Uint8", none, none, none⟩),
    (2, ⟨"Manufacturer", "Manufacturer", none, none, none⟩),
    (3, ⟨"SerialNumber", "Uint32z", none, none, none⟩),
    (4, ⟨"Product", "Uint16", none, none, none⟩),
    (5, ⟨"SoftwareVersion", "Uint16", some 100, none, none⟩),
    (6, ⟨"HardwareVersion", "Uint8", none, none, none⟩),
    (7, ⟨"CumOperatingTime", "Uint32", none, none, some "s"⟩),
    (10, ⟨"BatteryVoltage", "Uint16", some 256, none, some "V"⟩),
    (11, ⟨"BatteryStatus", "BatteryStatus", none, none, none⟩),
    (18, ⟨"SensorPosition", "BodyLocation", none, none, none⟩),
    (19, ⟨"Descriptor", "Utf8String", none, none, none⟩),
    (20, ⟨"AntTransmissionType", "Uint8z", none, none, none⟩),
    (21, ⟨"AntDeviceNumber", "Uint16z", none, none, none⟩),
    (22, ⟨"AntNetwork", "AntNetwork", none, none, none⟩)] ++
   [(25, ⟨"SourceType", "SourceType", none, none, none⟩),
    (27, ⟨"ProductName", "Utf8String", none, none, none⟩)]

/-- Field table of `TrainingFile` (global message number 72), extracted arm-for-arm from its `decode` in src/profile/messages.rs. -/
def fieldsTrainingFile : List (Nat × FieldSpec) :=
   [(253, ⟨"Timestamp", "DateTime", none, none, none⟩),
    (0, ⟨"Type", "File", none, none, none⟩),
    (1, ⟨"Manufacturer", "Manufacturer", none, none, none⟩),
    (2, ⟨"Product", "Uint16", none, none, none⟩),
    (3, ⟨"SerialNumber", "Uint32z", none, none, none⟩),
    (4, ⟨"TimeCreated", "DateTime", none, none, none⟩)]

/-- Field table of `Hrv` (global message number 78), extracted arm-for-arm from its `decode` in src/profile/messages.rs. -/
def fieldsHrv : List (Nat × FieldSpec) :=
   [(0, ⟨"Time", "Uint16", some 1000, none, some "s"⟩)]

/-- Field table of `WeatherConditions` (global message number 128), extracted arm-for-arm from its `decode` in src/profile/messages.rs. -/
def fieldsWeatherConditions : List (Nat × FieldSpec) :=
   [(253, ⟨"Timestamp", "DateTime", none, none, none⟩),
    (0, ⟨"WeatherReport", "WeatherReport", none, none, none⟩),
    (1, ⟨"Temperature", "Sint8", none, none, some "C"⟩),
    (2, ⟨"Condition", "WeatherStatus", none, none, none⟩),
    (3, ⟨"WindDirection", "Uint16", none, none, some "degrees"⟩),
    (4, ⟨"WindSpeed", "Uint16", some 1000, none, some "m/s"⟩),
    (5, ⟨"PrecipitationProbability", "Uint8", none, none, none⟩),
    (6, ⟨"TemperatureFeelsLike", "Sint8", none, none, some "C"⟩),
    (7, ⟨"RelativeHumidity", "Uint8", none, none, none⟩),
    (8, ⟨"Location", "Utf8String", none, none, none⟩),
    (9, ⟨"ObservedAtTime", "DateTime", none, none, none⟩),
    (10, ⟨"ObservedLocationLat", "Sint32", none, none, some "semicircles"⟩),
    (11, ⟨"ObservedLocationLong", "Sint32", none, none, some "semicircles"⟩),
    (12, ⟨"DayOfWeek", "DayOfWeek", none, none, none⟩),
    (13, ⟨"HighTemperature", "Sint8", none, none, some "C"⟩),
    (14, ⟨"LowTemperature", "Sint8", none, none, some "C"⟩)]

/-- Field table of `WeatherAlert` (global message number 129), extracted arm-for-arm from its `decode` in src/profile/messages.rs. -/
def fieldsWeatherAlert : List (Nat × FieldSpec) :=
   [(253, ⟨"Timestamp", "DateTime", none, none, none⟩),
    (0, ⟨"ReportId", "Utf8String", none, none, none⟩),
    (1, ⟨"IssueTime", "DateTime", none, none, none⟩),
    (2, ⟨"ExpireTime", "DateTime", none, none, none⟩),
    (3, ⟨"Severity", "WeatherSeverity", none, none, none⟩),
    (4, ⟨"Type", "WeatherSevereType", none, none, none⟩)]

/-- Field table of `GpsMetadata` (global message number 160), extracted arm-for-arm from its `decode` in src/profile/messages.rs. -/
def fieldsGpsMetadata : List (Nat × FieldSpec) :=
   [(253, ⟨"Timestamp", "DateTime", none, none, some "s"⟩),
    (0, ⟨"TimestampMs", "Uint16", none, none, some "ms"⟩),
    (1, ⟨"PositionLat", "Sint32", none, none, some "semicircles"⟩),
    (2, ⟨"PositionLong", "Sint32", none, none, some "semicircles"⟩),
    (3, ⟨"EnhancedAltitude", "Uint32", some 5, some 500, some "m"⟩),
    (4, ⟨"EnhancedSpeed", "Uint32", some 1000, none, some "m/s"⟩),
    (5, ⟨"Heading", "Uint16", some 100, none, some "degrees"⟩),
    (6, ⟨"UtcTimestamp", "DateTime", none, none, some "s"⟩),
    (7, ⟨"Velocity", "Sint16", some 100, none, some "m/s"⟩)]

/-- Field table of `CameraEvent` (global message number 161), extracted arm-for-arm from its `decode` in src/profile/messages.rs. -/
def fieldsCameraEvent : List (Nat × FieldSpec) :=
   [(253, ⟨"Timestamp", "DateTime", none, none, some "s"⟩),
    (0, ⟨"TimestampMs", "Uint16", none, none, some "ms"⟩),
    (1, ⟨"CameraEventType", "CameraEventType", none, none, none⟩),
    (2, ⟨"CameraFileUuid", "Utf8String", none, none, none⟩),
    (3, ⟨"CameraOrientation", "CameraOrientationType", none, none, none⟩)]

/-- Field table of `GyroscopeData` (global message number 164), extracted arm-for-arm from its `decode` in src/profile/messages.rs. -/
def fieldsGyroscopeData : List (Nat × FieldSpec) :=
   [(253, ⟨"Timestamp", "DateTime", none, none, some "s"⟩),
    (0, ⟨"TimestampMs", "Uint16", none, none, some "ms"⟩),
    (1, ⟨"SampleTimeOffset", "Uint16", none, none, some "ms"⟩),
    (2, ⟨"GyroX", "Uint16", none, none, some "counts"⟩),
    (3, ⟨"GyroY", "Uint16", none, none, some "counts"⟩),
    (4, ⟨"GyroZ", "Uint16", none, none, some "counts"⟩),
    (5, ⟨"CalibratedGyroX", "Float32", none, none, some "deg/s"⟩),
    (6, ⟨"CalibratedGyroY", "Float32", none, none, some "deg/s"⟩),
    (7, ⟨"CalibratedGyroZ", "Float32", none, none, some "deg/s"⟩)]

/-- Field table of `AccelerometerData` (global message number 165), extracted arm-for-arm from its `decode` in src/profile/messages.rs. -/
def fieldsAccelerometerData : List (Nat × FieldSpec) :=
   [(253, ⟨"Timestamp", "DateTime", none, none, some "s"⟩),
    (0, ⟨"TimestampMs", "Uint16", none, none, some "ms"⟩),
    (1, ⟨"SampleTimeOffset", "Uint16", none, none, some "ms"⟩),
    (2, ⟨"AccelX", "Uint16", none, none, some "counts"⟩),
    (3, ⟨"AccelY", "Uint16", none, none, some "counts"⟩),
    (4, ⟨"AccelZ", "Uint16", none, none, some "counts"⟩),
    (5, ⟨"CalibratedAccelX", "Float32", none, none, some "g"⟩),
    (6, ⟨"CalibratedAccelY", "Float32", none, none, some "g"⟩),
    (7, ⟨"CalibratedAccelZ", "Float32", none, none, some "g"⟩),
    (8, ⟨"CompressedCalibratedAccelX", "Sint16", none, none, some "mG"⟩),
    (9, ⟨"CompressedCalibratedAccelY", "Sint16", none, none, some "mG"⟩),
    (10, ⟨"CompressedCalibratedAccelZ", "Sint16", none, none, some "mG"⟩)]

/-- Field table of `MagnetometerData` (global message number 208), extracted arm-for-arm from its `decode` in src/profile/messages.rs. -/
def fieldsMagnetometerData : List (Nat × FieldSpec) :=
   [(253, ⟨"Timestamp", "DateTime", none, none, some "s"⟩),
    (0, ⟨"TimestampMs", "Uint16", none, none, some "ms"⟩),
    (1, ⟨"SampleTimeOffset", "Uint16", none, none, some "ms"⟩),
    (2, ⟨"MagX", "Uint16", none, none, some "counts"⟩),
    (3, ⟨"MagY", "Uint16", none, none, some "counts"⟩),
    (4, ⟨"MagZ", "Uint16", none, none, some "counts"⟩),
    (5, ⟨"CalibratedMagX", "Float32", none, none, some "G"⟩),
    (6, ⟨"CalibratedMagY", "Float32", none, none, some "G"⟩),
    (7, ⟨"CalibratedMagZ", "Float32", none, none, some "G"⟩)]

/-- Field table of `BarometerData` (global message number 209), extracted arm-for-arm from its `decode` in src/profile/messages.rs. -/
def fieldsBarometerData : List (Nat × FieldSpec) :=
   [(253, ⟨"Timestamp", "DateTime", none, none, some "s"⟩),
    (0, ⟨"TimestampMs", "Uint16", none, none, some "ms"⟩),
    (1, ⟨"SampleTimeOffset", "Uint16", none, none, some "ms"⟩),
    (2, ⟨"BaroPres", "Uint32", none, none, some "Pa"⟩)]

/-- Field table of `ThreeDSensorCalibration` (global message number 167), extracted arm-for-arm from its `decode` in src/profile/messages.rs. -/
def fieldsThreeDSensorCalibration : List (Nat × FieldSpec) :=
   [(253, ⟨"Timestamp", "DateTime", none, none, some "s"⟩),
    (0, ⟨"SensorType", "SensorType", none, none, none⟩),
    (1, ⟨"CalibrationFactor", "Uint32", none, none, none⟩),
    (2, ⟨"CalibrationDivisor", "Uint32", none, none, some "counts"⟩),
    (3, ⟨"LevelShift", "Uint32", none, none, none⟩),
    (4, ⟨"OffsetCal", "Sint32", none, none, none⟩),
    (5, ⟨"OrientationMatrix", "Sint32", some 65535, none, none⟩)]

/-- Field table of `OneDSensorCalibration` (global message number 210), extracted arm-for-arm from its `decode` in src/profile/messages.rs. -/
def fieldsOneDSensorCalibration : List (Nat × FieldSpec) :=
   [(253, ⟨"Timestamp", "DateTime", none, none, some "s"⟩),
    (0, ⟨"SensorType", "SensorType", none, none, none⟩),
    (1, ⟨"CalibrationFactor", "Uint32", none, none, none⟩),
    (2, ⟨"CalibrationDivisor", "Uint32", none, none, some "counts"⟩),
    (3, ⟨"LevelShift", "Uint32", none, none, none⟩),
    (4, ⟨"OffsetCal", "Sint32", none, none, none⟩)]

/-- Field table of `VideoFrame` (global message number 169), extracted arm-for-arm from its `decode` in src/profile/messages.rs. -/
def fieldsVideoFrame : List (Nat × FieldSpec) :=
   [(253, ⟨"Timestamp", "DateTime", none, none, some "s"⟩),
    (0, ⟨"TimestampMs", "Uint16", none, none, some "ms"⟩),
    (1, ⟨"FrameNumber", "Uint32", none, none, none⟩)]

/-- Field table of `ObdiiData` (global message number 174), extracted arm-for-arm from its `decode` in src/profile/messages.rs. -/
def fieldsObdiiData : List (Nat × FieldSpec) :=
   [(253, ⟨"Timestamp", "DateTime", none, none, some "s"⟩),
    (0, ⟨"TimestampMs", "Uint16", none, none, some "ms"⟩),
    (1, ⟨"TimeOffset", "Uint16", none, none, some "ms"⟩),
    (2, ⟨"Pid", "Bytes", none, none, none⟩),
    (3, ⟨"RawData", "Bytes", none, none, none⟩),
    (4, ⟨"PidDataSize", "Uint8", none, none, none⟩),
    (5, ⟨"SystemTime", "Uint32", none, none, none⟩),
    (6, ⟨"StartTimestamp", "DateTime", none, none, none⟩),
    (7, ⟨"StartTimestampMs", "Uint16", none, none, some "ms"⟩)]

/-- Field table of `NmeaSentence` (global message number 177), extracted arm-for-arm from its `decode` in src/profile/messages.rs. -/
def fieldsNmeaSentence : List (Nat × FieldSpec) :=
   [(253, ⟨"Timestamp", "DateTime", none, none, some "s"⟩),
    (0, ⟨"TimestampMs", "Uint16", none, none, some "ms"⟩),
    (1, ⟨"Sentence", "Utf8String", none, none, none⟩)]

/-- Field table of `AviationAttitude` (global message number 178), extracted arm-for-arm from its `decode` in src/profile/messages.rs. -/
def fieldsAviationAttitude : List (Nat × FieldSpec) :=
   [(253, ⟨"Timestamp", "DateTime", none, none, some "s"⟩),
    (0, ⟨"TimestampMs", "Uint16", none, none, some "ms"⟩),
    (1, ⟨"SystemTime", "Uint32", none, none, some "ms"⟩),
    (2, ⟨"Pitch", "Sint16", some (521519 / 50 : Rat), none, some "radians"⟩),
    (3, ⟨"Roll", "Sint16", some (521519 / 50 : Rat), none, some "radians"⟩),
    (4, ⟨"AccelLateral", "Sint16", some 100, none, some "m/s^2"⟩),
    (5, ⟨"AccelNormal", "Sint16", some 100, none, some "m/s^2"⟩),
    (6, ⟨"TurnRate", "Sint16", some 1024, none, some "radians/second"⟩),
    (7, ⟨"Stage", "AttitudeStage", none, none, none⟩),
    (8, ⟨"AttitudeStageComplete", "Uint8", none, none, some "%"⟩),
    (9, ⟨"Track", "Uint16", some (521519 / 50 : Rat), none, some "radians"⟩),
    (10, ⟨"Validity", "AttitudeValidity", none, none, none⟩)]

/-- Field table of `Video` (global message number 184), extracted arm-for-arm from its `decode` in src/profile/messages.rs. -/
def fieldsVideo : List (Nat × FieldSpec) :=
   [(0, ⟨"Url", "Utf8String", none, none, none⟩),
    (1, ⟨"HostingProvider", "Utf8String", none, none, none⟩),
    (2, ⟨"Duration", "Uint32", none, none, some "ms"⟩)]

/-- Field table of `VideoTitle` (global message number 185), extracted arm-for-arm from its `decode` in src/profile/messages.rs. -/
def fieldsVideoTitle : List (Nat × FieldSpec) :=
   [(254, ⟨"MessageIndex", "MessageIndex", none, none, none⟩),
    (0, ⟨"MessageCount", "Uint16", none, none, none⟩),
    (1, ⟨"Text", "Utf8String", none, none, none⟩)]

/-- Field table of `VideoDescription` (global message number 186), extracted arm-for-arm from its `decode` in src/profile/messages.rs. -/
def fieldsVideoDescription : List (Nat × FieldSpec) :=
   [(254, ⟨"MessageIndex", "MessageIndex", none, none, none⟩),
    (0, ⟨"MessageCount", "Uint16", none, none, none⟩),
    (1, ⟨"Text", "Utf8String", none, none, none⟩)]

/-- Field table of `VideoClip` (global message number 187), extracted arm-for-arm from its `decode` in src/profile/messages.rs. -/
def fieldsVideoClip : List (Nat × FieldSpec) :=
   [(0, ⟨"ClipNumber", "Uint16", none, none, none⟩),
    (1, ⟨"StartTimestamp", "DateTime", none, none, none⟩),
    (2, ⟨"StartTimestampMs", "Uint16", none, none, none⟩),
    (3, ⟨"EndTimestamp", "DateTime", none, none, none⟩),
    (4, ⟨"EndTimestampMs", "Uint16", none, none, none⟩),
    (6, ⟨"ClipStart", "Uint32", none, none, some "ms"⟩),
    (7, ⟨"ClipEnd", "Uint32", none, none, some "ms"⟩)]

/-- Field table of `Set` (global message number 225), extracted arm-for-arm from its `decode` in src/profile/messages.rs. -/
def fieldsSet : List (Nat × FieldSpec) :=
   [(254, ⟨"Timestamp", "DateTime", none, none, none⟩),
    (0, ⟨"Duration", "Uint32", some 1000, none, some "s"⟩),
    (3, ⟨"Repetitions", "Uint16", none, none, none⟩),
    (4, ⟨"Weight", "Uint16", some 16, none, some "kg"⟩),
    (5, ⟨"SetType", "SetType", none, none, none⟩),
    (6, ⟨"StartTime", "DateTime", none, none, none⟩),
    (7, ⟨"Category", "ExerciseCategory", none, none, none⟩),
    (8, ⟨"CategorySubtype", "Uint16", none, none, none⟩),
    (9, ⟨"WeightDisplayUnit", "FitBaseUnit", none, none, none⟩),
    (10, ⟨"MessageIndex", "MessageIndex", none, none, none⟩),
    (11, ⟨"WktStepIndex", "MessageIndex", none, none, none⟩)]

/-- Field table of `Course` (global message number 31), extracted arm-for-arm from its `decode` in src/profile/messages.rs. -/
def fieldsCourse : List (Nat × FieldSpec) :=
   [(4, ⟨"Sport", "Sport", none, none, none⟩),
    (5, ⟨"Name", "Utf8String", none, none, none⟩),
    (6, ⟨"Capabilities", "CourseCapabilities", none, none, none⟩),
    (7, ⟨"SubSport", "SubSport", none, none, none⟩)]

/-- Field table of `CoursePoint` (global message number 32), extracted arm-for-arm from its `decode` in src/profile/messages.rs. -/
def fieldsCoursePoint : List (Nat × FieldSpec) :=
   [(254, ⟨"MessageIndex", "MessageIndex", none, none, none⟩),
    (1, ⟨"Timestamp", "DateTime", none, none, none⟩),
    (2, ⟨"PositionLat", "Sint32", none, none, some "semicircles"⟩),
    (3, ⟨"PositionLong", "Sint32", none, none, some "semicircles"⟩),
    (4, ⟨"Distance", "Uint32", some 100, none, some "m"⟩),
    (5, ⟨"Type", "CoursePoint", none, none, none⟩),
    (6, ⟨"Name", "Utf8String", none, none, none⟩),
    (8, ⟨"Favorite", "Bool", none, none, none⟩)]

/-- Field table of `SegmentId` (global message number 148), extracted arm-for-arm from its `decode` in src/profile/messages.rs. -/
def fieldsSegmentId : List (Nat × FieldSpec) :=
   [(0, ⟨"Name", "Utf8String", none, none, none⟩),
    (1, ⟨"Uuid", "Utf8String", none, none, none⟩),
    (2, ⟨"Sport", "Sport", none, none, none⟩),
    (3, ⟨"Enabled", "Bool", none, none, none⟩),
    (4, ⟨"UserProfilePrimaryKey", "Uint32", none, none, none⟩),
    (5, ⟨"DeviceId", "Uint32", none, none, none⟩),
    (6, ⟨"DefaultRaceLeader", "Uint8", none, none, none⟩),
    (7, ⟨"DeleteStatus", "SegmentDeleteStatus", none, none, none⟩),
    (8, ⟨"SelectionType", "SegmentSelectionType", none, none, none⟩)]

/-- Field table of `SegmentLeaderboardEntry` (global message number 149), extracted arm-for-arm from its `decode` in src/profile/messages.rs. -/
def fieldsSegmentLeaderboardEntry : List (Nat × FieldSpec) :=
   [(254, ⟨"MessageIndex", "MessageIndex", none, none, none⟩),
    (0, ⟨"Name", "Utf8String", none, none, none⟩),
    (1, ⟨"Type", "SegmentLeaderboardType", none, none, none⟩),
    (2, ⟨"GroupPrimaryKey", "Uint32", none, none, none⟩),
    (3, ⟨"ActivityId", "Uint32", none, none, none⟩),
    (4, ⟨"SegmentTime", "Uint32", some 1000, none, some "s"⟩),
    (5, ⟨"ActivityIdString", "Utf8String", none, none, none⟩)]

/-- Field table of `SegmentPoint` (global message number 150), extracted arm-for-arm from its `decode` in src/profile/messages.rs. -/
def fieldsSegmentPoint : List (Nat × FieldSpec) :=
   [(254, ⟨"MessageIndex", "MessageIndex", none, none, none⟩),
    (1, ⟨"PositionLat", "Sint32", none, none, some "semicircles"⟩),
    (2, ⟨"PositionLong", "Sint32", none, none, some "semicircles"⟩),
    (3, ⟨"Distance", "Uint32", some 100, none, some "m"⟩),
    (4, ⟨"Altitude", "Uint16", some 5, some 500, some "m"⟩),
    (5, ⟨"LeaderTime", "Uint32", some 1000, none, some "s"⟩)]

/-- Field table of `SegmentLap` (global message number 142), extracted arm-for-arm from its `decode` in src/profile/messages.rs. -/
def fieldsSegmentLap : List (Nat × FieldSpec) :=
   [(254, ⟨"MessageIndex", "MessageIndex", none, none, none⟩),
    (253, ⟨"Timestamp", "DateTime", none, none, some "s"⟩),
    (0, ⟨"Event", "Event", none, none, none⟩),
    (1, ⟨"EventType", "EventType", none, none, none⟩),
    (2, ⟨"StartTime", "DateTime", none, none, none⟩),
    (3, ⟨"StartPositionLat", "Sint32", none, none, some "semicircles"⟩),
    (4, ⟨"StartPositionLong", "Sint32", none, none, some "semicircles"⟩),
    (5, ⟨"EndPositionLat", "Sint32", none, none, some "semicircles"⟩),
    (6, ⟨"EndPositionLong", "Sint32", none, none, some "semicircles"⟩),
    (7, ⟨"TotalElapsedTime", "Uint32", some 1000, none, some "s"⟩),
    (8, ⟨"TotalTimerTime", "Uint32", some 1000, none, some "s"⟩),
    (9, ⟨"TotalDistance", "Uint32", some 100, none, some "m"⟩),
    (10, ⟨"TotalCycles", "Uint32", none, none, some "cycles"⟩),
    (11, ⟨"TotalCalories", "Uint16", none, none, some "kcal"⟩),
    (12, ⟨"TotalFatCalories", "Uint16", none, none, some "kcal"⟩),
    (13, ⟨"AvgSpeed", "Uint16", some 1000, none, some "m/s"⟩)] ++
   [(14, ⟨"MaxSpeed", "Uint16", some 1000, none, some "m/s"⟩),
    (15, ⟨"AvgHeartRate", "Uint8", none, none, some "bpm"⟩),
    (16, ⟨"MaxHeartRate", "Uint8", none, none, some "bpm"⟩),
    (17, ⟨"AvgCadence", "Uint8", none, none, some "rpm"⟩),
    (18, ⟨"MaxCadence", "Uint8", none, none, some "rpm"⟩),
    (19, ⟨"AvgPower", "Uint16", none, none, some "watts"⟩),
    (20, ⟨"MaxPower", "Uint16", none, none, some "watts"⟩),
    (21, ⟨"TotalAscent", "Uint16", none, none, some "m"⟩),
    (22, ⟨"TotalDescent", "Uint16", none, none, some "m"⟩),
    (23, ⟨"Sport", "Sport", none, none, none⟩),
    (24, ⟨"EventGroup", "Uint8", none, none, none⟩),
    (25, ⟨"NecLat", "Sint32", none, none, some "semicircles"⟩),
    (26, ⟨"NecLong", "Sint32", none, none, some "semicircles"⟩),
    (27, ⟨"SwcLat", "Sint32", none, none, some "semicircles"⟩),
    (28, ⟨"SwcLong", "Sint32", none, none, some "semicircles"⟩),
    (29, ⟨"Name", "Utf8String", none, none, none⟩)] ++
   [(30, ⟨"NormalizedPower", "Uint16", none, none, some "watts"⟩),
    (31, ⟨"LeftRightBalance", "LeftRightBalance100", none, none, none⟩),
    (32, ⟨"SubSport", "SubSport", none, none, none⟩),
    (33, ⟨"TotalWork", "Uint32", none, none, some "J"⟩),
    (34, ⟨"AvgAltitude", "Uint16", some 5, some 500, some "m"⟩),
    (35, ⟨"MaxAltitude", "Uint16", some 5, some 500, some "m"⟩),
    (36, ⟨"GpsAccuracy", "Uint8", none, none, some "m"⟩),
    (37, ⟨"AvgGrade", "Sint16", some 100, none, some "%"⟩),
    (38, ⟨"AvgPosGrade", "Sint16", some 100, none, some "%"⟩),
    (39, ⟨"AvgNegGrade", "Sint16", some 100, none, some "%"⟩),
    (40, ⟨"MaxPosGrade", "Sint16", some 100, none, some "%"⟩),
    (41, ⟨"MaxNegGrade", "Sint16", some 100, none, some "%"⟩),
    (42, ⟨"AvgTemperature", "Sint8", none, none, some "C"⟩),
    (43, ⟨"MaxTemperature", "Sint8", none, none, some "C"⟩),
    (44, ⟨"TotalMovingTime", "Uint32", some 1000, none, some "s"⟩),
    (45, ⟨"AvgPosVerticalSpeed", "Sint16", some 1000, none, some "m/s"⟩)] ++
   [(46, ⟨"AvgNegVerticalSpeed", "Sint16", some 1000, none, some "m/s"⟩),
    (47, ⟨"MaxPosVerticalSpeed", "Sint16", some 1000, none, some "m/s"⟩),
    (48, ⟨"MaxNegVerticalSpeed", "Sint16", some 1000, none, some "m/s"⟩),
    (49, ⟨"TimeInHrZone", "Uint32", some 1000, none, some "s"⟩),
    (50, ⟨"TimeInSpeedZone", "Uint32", some 1000, none, some "s"⟩),
    (51, ⟨"TimeInCadenceZone", "Uint32", some 1000, none, some "s"⟩),
    (52, ⟨"TimeInPowerZone", "Uint32", some 1000, none, some "s"⟩),
    (53, ⟨"RepetitionNum", "Uint16", none, none, none⟩),
    (54, ⟨"MinAltitude", "Uint16", some 5, some 500, some "m"⟩),
    (55, ⟨"MinHeartRate", "Uint8", none, none, some "bpm"⟩),
    (56, ⟨"ActiveTime", "Uint32", some 1000, none, some "s"⟩),
    (57, ⟨"WktStepIndex", "MessageIndex", none, none, none⟩),
    (58, ⟨"SportEvent", "SportEvent", none, none, none⟩),
    (59, ⟨"AvgLeftTorqueEffectiveness", "Uint8", some 2, none, some "percent"⟩),
    (60, ⟨"AvgRightTorqueEffectiveness", "Uint8", some 2, none, some "percent"⟩),
    (61, ⟨"AvgLeftPedalSmoothness", "Uint8", some 2, none, some "percent"⟩)] ++
   [(62, ⟨"AvgRightPedalSmoothness", "Uint8", some 2, none, some "percent"⟩),
    (63, ⟨"AvgCombinedPedalSmoothness", "Uint8", some 2, none, some "percent"⟩),
    (64, ⟨"Status", "SegmentLapStatus", none, none, none⟩),
    (65, ⟨"Uuid", "Utf8String", none, none, none⟩),
    (66, ⟨"AvgFractionalCadence", "Uint8", some 128, none, some "rpm"⟩),
    (67, ⟨"MaxFractionalCadence", "Uint8", some 128, none, some "rpm"⟩),
    (68, ⟨"TotalFractionalCycles", "Uint8", some 128, none, some "cycles"⟩),
    (69, ⟨"FrontGearShiftCount", "Uint16", none, none, none⟩),
    (70, ⟨"RearGearShiftCount", "Uint16", none, none, none⟩),
    (71, ⟨"TimeStanding", "Uint32", some 1000, none, some "s"⟩),
    (72, ⟨"StandCount", "Uint16", none, none, none⟩),
    (73, ⟨"AvgLeftPco", "Sint8", none, none, some "mm"⟩),
    (74, ⟨"AvgRightPco", "Sint8", none, none, some "mm"⟩),
    (75, ⟨"AvgLeftPowerPhase", "Uint8", some (7111111 / 10000000 : Rat), none, some "degrees"⟩),
    (76, ⟨"AvgLeftPowerPhasePeak", "Uint8", some (7111111 / 10000000 : Rat), none, some "degrees"⟩),
    (77, ⟨"AvgRightPowerPhase", "Uint8", some (7111111 / 10000000 : Rat), none, some "degrees"⟩)] ++
   [(78, ⟨"AvgRightPowerPhasePeak", "Uint8", some (7111111 / 10000000 : Rat), none, some "degrees"⟩),
    (79, ⟨"AvgPowerPosition", "Uint16", none, none, some "watts"⟩),
    (80, ⟨"MaxPowerPosition", "Uint16", none, none, some "watts"⟩),
    (81, ⟨"AvgCadencePosition", "Uint8", none, none, some "rpm"⟩),
    (82, ⟨"MaxCadencePosition", "Uint8", none, none, some "rpm"⟩),
    (83, ⟨"Manufacturer", "Manufacturer", none, none, none⟩)]

/-- Field table of `SegmentFile` (global message number 151), extracted arm-for-arm from its `decode` in src/profile/messages.rs. -/
def fieldsSegmentFile : List (Nat × FieldSpec) :=
   [(254, ⟨"MessageIndex", "MessageIndex", none, none, none⟩),
    (1, ⟨"FileUuid", "Utf8String", none, none, none⟩),
    (3, ⟨"Enabled", "Bool", none, none, none⟩),
    (4, ⟨"UserProfilePrimaryKey", "Uint32", none, none, none⟩),
    (7, ⟨"LeaderType", "SegmentLeaderboardType", none, none, none⟩),
    (8, ⟨"LeaderGroupPrimaryKey", "Uint32", none, none, none⟩),
    (9, ⟨"LeaderActivityId", "Uint32", none, none, none⟩),
    (10, ⟨"LeaderActivityIdString", "Utf8String", none, none, none⟩),
    (11, ⟨"DefaultRaceLeader", "Uint8", none, none, none⟩)]

/-- Field table of `Workout` (global message number 26), extracted arm-for-arm from its `decode` in src/profile/messages.rs. -/
def fieldsWorkout : List (Nat × FieldSpec) :=
   [(4, ⟨"Sport", "Sport", none, none, none⟩),
    (5, ⟨"Capabilities", "WorkoutCapabilities", none, none, none⟩),
    (6, ⟨"NumValidSteps", "Uint16", none, none, none⟩),
    (8, ⟨"WktName", "Utf8String", none, none, none⟩),
    (11, ⟨"SubSport", "SubSport", none, none, none⟩),
    (14, ⟨"PoolLength", "Uint16", some 100, none, some "m"⟩),
    (15, ⟨"PoolLengthUnit", "DisplayMeasure", none, none, none⟩)]

/-- Field table of `WorkoutSession` (global message number 158), extracted arm-for-arm from its `decode` in src/profile/messages.rs. -/
def fieldsWorkoutSession : List (Nat × FieldSpec) :=
   [(254, ⟨"MessageIndex", "MessageIndex", none, none, none⟩),
    (0, ⟨"Sport", "Sport", none, none, none⟩),
    (1, ⟨"SubSport", "SubSport", none, none, none⟩),
    (2, ⟨"NumValidSteps", "Uint16", none, none, none⟩),
    (3, ⟨"FirstStepIndex", "Uint16", none, none, none⟩),
    (4, ⟨"PoolLength", "Uint16", some 100, none, some "m"⟩),
    (5, ⟨"PoolLengthUnit", "DisplayMeasure", none, none, none⟩)]

/-- Field table of `WorkoutStep` (global message number 27), extracted arm-for-arm from its `decode` in src/profile/messages.rs. -/
def fieldsWorkoutStep : List (Nat × FieldSpec) :=
   [(254, ⟨"MessageIndex", "MessageIndex", none, none, none⟩),
    (0, ⟨"WktStepName", "Utf8String", none, none, none⟩),
    (1, ⟨"DurationType", "WktStepDuration", none, none, none⟩),
    (2, ⟨"DurationValue", "Uint32", none, none, none⟩),
    (3, ⟨"TargetType", "WktStepTarget", none, none, none⟩),
    (4, ⟨"TargetValue", "Uint32", none, none, none⟩),
    (5, ⟨"CustomTargetValueLow", "Uint32", none, none, none⟩),
    (6, ⟨"CustomTargetValueHigh", "Uint32", none, none, none⟩),
    (7, ⟨"Intensity", "Intensity", none, none, none⟩),
    (8, ⟨"Notes", "Utf8String", none, none, none⟩),
    (9, ⟨"Equipment", "WorkoutEquipment", none, none, none⟩),
    (10, ⟨"ExerciseCategory", "ExerciseCategory", none, none, none⟩),
    (11, ⟨"ExerciseName", "Uint16", none, none, none⟩),
    (12, ⟨"ExerciseWeight", "Uint16", some 100, none, some "kg"⟩),
    (13, ⟨"WeightDisplayUnit", "FitBaseUnit", none, none, none⟩)]

/-- Field table of `ExerciseTitle` (global message number 264), extracted arm-for-arm from its `decode` in src/profile/messages.rs. -/
def fieldsExerciseTitle : List (Nat × FieldSpec) :=
   [(254, ⟨"MessageIndex", "MessageIndex", none, none, none⟩),
    (0, ⟨"ExerciseCategory", "ExerciseCategory", none, none, none⟩),
    (1, ⟨"ExerciseName", "Uint16", none, none, none⟩),
    (2, ⟨"WktStepName", "Utf8String", none, none, none⟩)]

/-- Field table of `Schedule` (global message number 28), extracted arm-for-arm from its `decode` in src/profile/messages.rs. -/
def fieldsSchedule : List (Nat × FieldSpec) :=
   [(0, ⟨"Manufacturer", "Manufacturer", none, none, none⟩),
    (1, ⟨"Product", "Uint16", none, none, none⟩),
    (2, ⟨"SerialNumber", "Uint32z", none, none, none⟩),
    (3, ⟨"TimeCreated", "DateTime", none, none, none⟩),
    (4, ⟨"Completed", "Bool", none, none, none⟩),
    (5, ⟨"Type", "Schedule", none, none, none⟩),
    (6, ⟨"ScheduledTime", "LocalDateTime", none, none, none⟩)]

/-- Field table of `Totals` (global message number 33), extracted arm-for-arm from its `decode` in src/profile/messages.rs. -/
def fieldsTotals : List (Nat × FieldSpec) :=
   [(254, ⟨"MessageIndex", "MessageIndex", none, none, none⟩),
    (253, ⟨"Timestamp", "DateTime", none, none, some "s"⟩),
    (0, ⟨"TimerTime", "Uint32", none, none, some "s"⟩),
    (1, ⟨"Distance", "Uint32", none, none, some "m"⟩),
    (2, ⟨"Calories", "Uint32", none, none, some "kcal"⟩),
    (3, ⟨"Sport", "Sport", none, none, none⟩),
    (4, ⟨"ElapsedTime", "Uint32", none, none, some "s"⟩),
    (5, ⟨"Sessions", "Uint16", none, none, none⟩),
    (6, ⟨"ActiveTime", "Uint32", none, none, some "s"⟩),
    (9, ⟨"SportIndex", "Uint8", none, none, none⟩)]

/-- Field table of `WeightScale` (global message number 30), extracted arm-for-arm from its `decode` in src/profile/messages.rs. -/
def fieldsWeightScale : List (Nat × FieldSpec) :=
   [(253, ⟨"Timestamp", "DateTime", none, none, some "s"⟩),
    (0, ⟨"Weight", "Weight", some 100, none, some "kg"⟩),
    (1, ⟨"PercentFat", "Uint16", some 100, none, some "%"⟩),
    (2, ⟨"PercentHydration", "Uint16", some 100, none, some "%"⟩),
    (3, ⟨"VisceralFatMass", "Uint16", some 100, none, some "kg"⟩),
    (4, ⟨"BoneMass", "Uint16", some 100, none, some "kg"⟩),
    (5, ⟨"MuscleMass", "Uint16", some 100, none, some "kg"⟩),
    (7, ⟨"BasalMet", "Uint16", some 4, none, some "kcal/day"⟩),
    (8, ⟨"PhysiqueRating", "Uint8", none, none, none⟩),
    (9, ⟨"ActiveMet", "Uint16", some 4, none, some "kcal/day"⟩),
    (10, ⟨"MetabolicAge", "Uint8", none, none, some "years"⟩),
    (11, ⟨"VisceralFatRating", "Uint8", none, none, none⟩),
    (12, ⟨"UserProfileIndex", "MessageIndex", none, none, none⟩)]

/-- Field table of `BloodPressure` (global message number 51), extracted arm-for-arm from its `decode` in src/profile/messages.rs. -/
def fieldsBloodPressure : List (Nat × FieldSpec) :=
   [(253, ⟨"Timestamp", "DateTime", none, none, some "s"⟩),
    (0, ⟨"SystolicPressure", "Uint16", none, none, some "mmHg"⟩),
    (1, ⟨"DiastolicPressure", "Uint16", none, none, some "mmHg"⟩),
    (2, ⟨"MeanArterialPressure", "Uint16", none, none, some "mmHg"⟩),
    (3, ⟨"Map3SampleMean", "Uint16", none, none, some "mmHg"⟩),
    (4, ⟨"MapMorningValues", "Uint16", none, none, some "mmHg"⟩),
    (5, ⟨"MapEveningValues", "Uint16", none, none, some "mmHg"⟩),
    (6, ⟨"HeartRate", "Uint8", none, none, some "bpm"⟩),
    (7, ⟨"HeartRateType", "HrType", none, none, none⟩),
    (8, ⟨"Status", "BpStatus", none, none, none⟩),
    (9, ⟨"UserProfileIndex", "MessageIndex", none, none, none⟩)]

/-- Field table of `MonitoringInfo` (global message number 103), extracted arm-for-arm from its `decode` in src/profile/messages.rs. -/
def fieldsMonitoringInfo : List (Nat × FieldSpec) :=
   [(253, ⟨"Timestamp", "DateTime", none, none, some "s"⟩),
    (0, ⟨"LocalTimestamp", "LocalDateTime", none, none, some "s"⟩),
    (1, ⟨"ActivityType", "ActivityType", none, none, none⟩),
    (3, ⟨"CyclesToDistance", "Uint16", some 5000, none, some "m/cycle"⟩),
    (4, ⟨"CyclesToCalories", "Uint16", some 5000, none, some "kcal/cycle"⟩),
    (5, ⟨"RestingMetabolicRate", "Uint16", none, none, some "kcal / day"⟩)]

/-- Field table of `Monitoring` (global message number 55), extracted arm-for-arm from its `decode` in src/profile/messages.rs. -/
def fieldsMonitoring : List (Nat × FieldSpec) :=
   [(253, ⟨"Timestamp", "DateTime", none, none, some "s"⟩),
    (0, ⟨"DeviceIndex", "DeviceIndex", none, none, none⟩),
    (1, ⟨"Calories", "Uint16", none, none, some "kcal"⟩),
    (2, ⟨"Distance", "Uint32", some 100, none, some "m"⟩),
    (3, ⟨"Cycles", "Uint32", some 2, none, some "cycles"⟩),
    (4, ⟨"ActiveTime", "Uint32", some 1000, none, some "s"⟩),
    (5, ⟨"ActivityType", "ActivityType", none, none, none⟩),
    (6, ⟨"ActivitySubtype", "ActivitySubtype", none, none, none⟩),
    (7, ⟨"ActivityLevel", "ActivityLevel", none, none, none⟩),
    (8, ⟨"Distance16", "Uint16", none, none, some "100 * m"⟩),
    (9, ⟨"Cycles16", "Uint16", none, none, some "2 * cycles (steps)"⟩),
    (10, ⟨"ActiveTime16", "Uint16", none, none, some "s"⟩),
    (11, ⟨"LocalTimestamp", "LocalDateTime", none, none, none⟩),
    (12, ⟨"Temperature", "Sint16", some 100, none, some "C"⟩),
    (14, ⟨"TemperatureMin", "Sint16", some 100, none, some "C"⟩),
    (15, ⟨"TemperatureMax", "Sint16", some 100, none, some "C"⟩)] ++
   [(16, ⟨"ActivityTime", "Uint16", none, none, some "minutes"⟩),
    (19, ⟨"ActiveCalories", "Uint16", none, none, some "kcal"⟩),
    (24, ⟨"CurrentActivityTypeIntensity", "Bytes", none, none, none⟩),
    (25, ⟨"TimestampMin8", "Uint8", none, none, some "min"⟩),
    (26, ⟨"Timestamp16", "Uint16", none, none, some "s"⟩),
    (27, ⟨"HeartRate", "Uint8", none, none, some "bpm"⟩),
    (28, ⟨"Intensity", "Uint8", some 10, none, none⟩),
    (29, ⟨"DurationMin", "Uint16", none, none, some "min"⟩),
    (30, ⟨"Duration", "Uint32", none, none, some "s"⟩),
    (31, ⟨"Ascent", "Uint32", some 1000, none, some "m"⟩),
    (32, ⟨"Descent", "Uint32", some 1000, none, some "m"⟩),
    (33, ⟨"ModerateActivityMinutes", "Uint16", none, none, some "minutes"⟩),
    (34, ⟨"VigorousActivityMinutes", "Uint16", none, none, some "minutes"⟩)]

/-- Field table of `Hr` (global message number 132), extracted arm-for-arm from its `decode` in src/profile/messages.rs. -/
def fieldsHr : List (Nat × FieldSpec) :=
   [(253, ⟨"Timestamp", "DateTime", none, none, none⟩),
    (0, ⟨"FractionalTimestamp", "Uint16", some 32768, none, some "s"⟩),
    (1, ⟨"Time256", "Uint8", some 256, none, some "s"⟩),
    (6, ⟨"FilteredBpm", "Uint8", none, none, some "bpm"⟩),
    (9, ⟨"EventTimestamp", "Uint32", some 1024, none, some "s"⟩),
    (10, ⟨"EventTimestamp12", "Bytes", none, none, some "s"⟩)]

/-- Field table of `StressLevel` (global message number 227), extracted arm-for-arm from its `decode` in src/profile/messages.rs. -/
def fieldsStressLevel : List (Nat × FieldSpec) :=
   [(0, ⟨"StressLevelValue", "Sint16", none, none, none⟩),
    (1, ⟨"StressLevelTime", "DateTime", none, none, some "s"⟩)]

/-- Field table of `MemoGlob` (global message number 145), extracted arm-for-arm from its `decode` in src/profile/messages.rs. -/
def fieldsMemoGlob : List (Nat × FieldSpec) :=
   [(250, ⟨"PartIndex", "Uint32", none, none, none⟩),
    (0, ⟨"Memo", "Bytes", none, none, none⟩),
    (1, ⟨"MessageNumber", "Uint16", none, none, none⟩),
    (2, ⟨"MessageIndex", "MessageIndex", none, none, none⟩)]

/-- Field table of `AntChannelId` (global message number 82), extracted arm-for-arm from its `decode` in src/profile/messages.rs. -/
def fieldsAntChannelId : List (Nat × FieldSpec) :=
   [(0, ⟨"ChannelNumber", "Uint8", none, none, none⟩),
    (1, ⟨"DeviceType", "Uint8z", none, none, none⟩),
    (2, ⟨"DeviceNumber", "Uint16z", none, none, none⟩),
    (3, ⟨"TransmissionType", "Uint8z", none, none, none⟩),
    (4, ⟨"DeviceIndex", "DeviceIndex", none, none, none⟩)]

/-- Field table of `AntRx` (global message number 80), extracted arm-for-arm from its `decode` in src/profile/messages.rs. -/
def fieldsAntRx : List (Nat × FieldSpec) :=
   [(253, ⟨"Timestamp", "DateTime", none, none, some "s"⟩),
    (0, ⟨"FractionalTimestamp", "Uint16", some 32768, none, some "s"⟩),
    (1, ⟨"MesgId", "Bytes", none, none, none⟩),
    (2, ⟨"MesgData", "Bytes", none, none, none⟩),
    (3, ⟨"ChannelNumber", "Uint8", none, none, none⟩),
    (4, ⟨"Data", "Bytes", none, none, none⟩)]

/-- Field table of `AntTx` (global message number 81), extracted arm-for-arm from its `decode` in src/profile/messages.rs. -/
def fieldsAntTx : List (Nat × FieldSpec) :=
   [(253, ⟨"Timestamp", "DateTime", none, none, some "s"⟩),
    (0, ⟨"FractionalTimestamp", "Uint16", some 32768, none, some "s"⟩),
    (1, ⟨"MesgId", "Bytes", none, none, none⟩),
    (2, ⟨"MesgData", "Bytes", none, none, none⟩),
    (3, ⟨"ChannelNumber", "Uint8", none, none, none⟩),
    (4, ⟨"Data", "Bytes", none, none, none⟩)]

/-- Field table of `ExdScreenConfiguration` (global message number 200), extracted arm-for-arm from its `decode` in src/profile/messages.rs. -/
def fieldsExdScreenConfiguration : List (Nat × FieldSpec) :=
   [(0, ⟨"ScreenIndex", "Uint8", none, none, none⟩),
    (1, ⟨"FieldCount", "Uint8", none, none, none⟩),
    (2, ⟨"Layout", "ExdLayout", none, none, none⟩),
    (3, ⟨"ScreenEnabled", "Bool", none, none, none⟩)]

/-- Field table of `ExdDataFieldConfiguration` (global message number 201), extracted arm-for-arm from its `decode` in src/profile/messages.rs. -/
def fieldsExdDataFieldConfiguration : List (Nat × FieldSpec) :=
   [(0, ⟨"ScreenIndex", "Uint8", none, none, none⟩),
    (1, ⟨"ConceptField", "Bytes", none, none, none⟩),
    (2, ⟨"FieldId", "Uint8", none, none, none⟩),
    (3, ⟨"ConceptCount", "Uint8", none, none, none⟩),
    (4, ⟨"DisplayType", "ExdDisplayType", none, none, none⟩),
    (5, ⟨"Title", "Utf8String", none, none, none⟩)]

/-- Field table of `ExdDataConceptConfiguration` (global message number 202), extracted arm-for-arm from its `decode` in src/profile/messages.rs. -/
def fieldsExdDataConceptConfiguration : List (Nat × FieldSpec) :=
   [(0, ⟨"ScreenIndex", "Uint8", none, none, none⟩),
    (1, ⟨"ConceptField", "Bytes", none, none, none⟩),
    (2, ⟨"FieldId", "Uint8", none, none, none⟩),
    (3, ⟨"ConceptIndex", "Uint8", none, none, none⟩),
    (4, ⟨"DataPage", "Uint8", none, none, none⟩),
    (5, ⟨"ConceptKey", "Uint8", none, none, none⟩),
    (6, ⟨"Scaling", "Uint8", none, none, none⟩),
    (8, ⟨"DataUnits", "ExdDataUnits", none, none, none⟩),
    (9, ⟨"Qualifier", "ExdQualifiers", none, none, none⟩),
    (10, ⟨"Descriptor", "ExdDescriptors", none, none, none⟩),
    (11, ⟨"IsSigned", "Bool", none, none, none⟩)]

/-- Field table of `FieldDescription` (global message number 206), extracted arm-for-arm from its `decode` in src/profile/messages.rs. -/
def fieldsFieldDescription : List (Nat × FieldSpec) :=
   [(0, ⟨"DeveloperDataIndex", "Uint8", none, none, none⟩),
    (1, ⟨"FieldDefinitionNumber", "Uint8", none, none, none⟩),
    (2, ⟨"FitBaseTypeId", "FitBaseType", none, none, none⟩),
    (3, ⟨"FieldName", "Utf8String", none, none, none⟩),
    (4, ⟨"Array", "Uint8", none, none, none⟩),
    (5, ⟨"Components", "Utf8String", none, none, none⟩),
    (6, ⟨"Scale", "Uint8", none, none, none⟩),
    (7, ⟨"Offset", "Sint8", none, none, none⟩),
    (8, ⟨"Units", "Utf8String", none, none, none⟩),
    (9, ⟨"Bits", "Utf8String", none, none, none⟩),
    (10, ⟨"Accumulate", "Utf8String", none, none, none⟩),
    (13, ⟨"FitBaseUnitId", "FitBaseUnit", none, none, none⟩),
    (14, ⟨"NativeMesgNum", "MesgNum", none, none, none⟩),
    (15, ⟨"NativeFieldNum", "Uint8", none, none, none⟩)]

/-- Field table of `DeveloperDataId` (global message number 207), extracted arm-for-arm from its `decode` in src/profile/messages.rs. -/
def fieldsDeveloperDataId : List (Nat × FieldSpec) :=
   [(0, ⟨"DeveloperId", "Bytes", none, none, none⟩),
    (1, ⟨"ApplicationId", "Bytes", none, none, none⟩),
    (2, ⟨"ManufacturerId", "Manufacturer", none, none, none⟩),
    (3, ⟨"DeveloperDataIndex", "Uint8", none, none, none⟩),
    (4, ⟨"ApplicationVersion", "Uint32", none, none, none⟩)]

/-- Field table of `DiveSummary` (global message number 268), extracted arm-for-arm from its `decode` in src/profile/messages.rs. -/
def fieldsDiveSummary : List (Nat × FieldSpec) :=
   [(253, ⟨"Timestamp", "DateTime", none, none, some "s"⟩),
    (0, ⟨"ReferenceMesg", "MesgNum", none, none, none⟩),
    (1, ⟨"ReferenceIndex", "MessageIndex", none, none, none⟩),
    (2, ⟨"AvgDepth", "Uint32", some 1000, none, some "m"⟩),
    (3, ⟨"MaxDepth", "Uint32", some 1000, none, some "m"⟩),
    (4, ⟨"SurfaceInterval", "Uint32", some 1, none, some "s"⟩),
    (5, ⟨"StartCns", "Uint8", some 1, none, some "percent"⟩),
    (6, ⟨"EndCns", "Uint8", some 1, none, some "percent"⟩),
    (7, ⟨"StartN2", "Uint16", some 1, none, some "percent"⟩),
    (8, ⟨"EndN2", "Uint16", some 1, none, some "percent"⟩),
    (9, ⟨"O2Toxicity", "Uint16", none, none, some "OTUs"⟩),
    (10, ⟨"DiveNumber", "Uint32", none, none, none⟩),
    (11, ⟨"BottomTime", "Uint32", some 1000, none, some "s"⟩)]

/-- The generated profile registry of src/profile/messages.rs: global message number, message name, field table, in the order of the arms of `Message::decode`. -/
def profileTable : List (Nat × String × List (Nat × FieldSpec)) :=
   [(0, "FileId", fieldsFileId),
    (49, "FileCreator", fieldsFileCreator),
    (162, "TimestampCorrelation", fieldsTimestampCorrelation),
    (35, "Software", fieldsSoftware),
    (106, "SlaveDevice", fieldsSlaveDevice),
    (1, "Capabilities", fieldsCapabilities),
    (37, "FileCapabilities", fieldsFileCapabilities),
    (38, "MesgCapabilities", fieldsMesgCapabilities),
    (39, "FieldCapabilities", fieldsFieldCapabilities),
    (2, "DeviceSettings", fieldsDeviceSettings),
    (3, "UserProfile", fieldsUserProfile),
    (4, "HrmProfile", fieldsHrmProfile),
    (5, "SdmProfile", fieldsSdmProfile),
    (6, "BikeProfile", fieldsBikeProfile),
    (127, "Connectivity", fieldsConnectivity),
    (159, "WatchfaceSettings", fieldsWatchfaceSettings)] ++
   [(188, "OhrSettings", fieldsOhrSettings),
    (7, "ZonesTarget", fieldsZonesTarget),
    (12, "Sport", fieldsSport),
    (8, "HrZone", fieldsHrZone),
    (53, "SpeedZone", fieldsSpeedZone),
    (131, "CadenceZone", fieldsCadenceZone),
    (9, "PowerZone", fieldsPowerZone),
    (10, "MetZone", fieldsMetZone),
    (258, "DiveSettings", fieldsDiveSettings),
    (262, "DiveAlarm", fieldsDiveAlarm),
    (259, "DiveGas", fieldsDiveGas),
    (15, "Goal", fieldsGoal),
    (34, "Activity", fieldsActivity),
    (18, "Session", fieldsSession),
    (19, "Lap", fieldsLap),
    (101, "Length", fieldsLength)] ++
   [(20, "Record", fieldsRecord),
    (21, "Event", fieldsEvent),
    (23, "DeviceInfo", fieldsDeviceInfo),
    (72, "TrainingFile", fieldsTrainingFile),
    (78, "Hrv", fieldsHrv),
    (128, "WeatherConditions", fieldsWeatherConditions),
    (129, "WeatherAlert", fieldsWeatherAlert),
    (160, "GpsMetadata", fieldsGpsMetadata),
    (161, "CameraEvent", fieldsCameraEvent),
    (164, "GyroscopeData", fieldsGyroscopeData),
    (165, "AccelerometerData", fieldsAccelerometerData),
    (208, "MagnetometerData", fieldsMagnetometerData),
    (209, "BarometerData", fieldsBarometerData),
    (167, "ThreeDSensorCalibration", fieldsThreeDSensorCalibration),
    (210, "OneDSensorCalibration", fieldsOneDSensorCalibration),
    (169, "VideoFrame", fieldsVideoFrame)] ++
   [(174, "ObdiiData", fieldsObdiiData),
    (177, "NmeaSentence", fieldsNmeaSentence),
    (178, "AviationAttitude", fieldsAviationAttitude),
    (184, "Video", fieldsVideo),
    (185, "VideoTitle", fieldsVideoTitle),
    (186, "VideoDescription", fieldsVideoDescription),
    (187, "VideoClip", fieldsVideoClip),
    (225, "Set", fieldsSet),
    (31, "Course", fieldsCourse),
    (32, "CoursePoint", fieldsCoursePoint),
    (148, "SegmentId", fieldsSegmentId),
    (149, "SegmentLeaderboardEntry", fieldsSegmentLeaderboardEntry),
    (150, "SegmentPoint", fieldsSegmentPoint),
    (142, "SegmentLap", fieldsSegmentLap),
    (151, "SegmentFile", fieldsSegmentFile),
    (26, "Workout", fieldsWorkout)] ++
   [(158, "WorkoutSession", fieldsWorkoutSession),
    (27, "WorkoutStep", fieldsWorkoutStep),
    (264, "ExerciseTitle", fieldsExerciseTitle),
    (28, "Schedule", fieldsSchedule),
    (33, "Totals", fieldsTotals),
    (30, "WeightScale", fieldsWeightScale),
    (51, "BloodPressure", fieldsBloodPressure),
    (103, "MonitoringInfo", fieldsMonitoringInfo),
    (55, "Monitoring", fieldsMonitoring),
    (132, "Hr", fieldsHr),
    (227, "StressLevel", fieldsStressLevel),
    (145, "MemoGlob", fieldsMemoGlob),
    (82, "AntChannelId", fieldsAntChannelId),
    (80, "AntRx", fieldsAntRx),
    (81, "AntTx", fieldsAntTx),
    (200, "ExdScreenConfiguration", fieldsExdScreenConfiguration)] ++
   [(201, "ExdDataFieldConfiguration", fieldsExdDataFieldConfiguration),
    (202, "ExdDataConceptConfiguration", fieldsExdDataConceptConfiguration),
    (206, "FieldDescription", fieldsFieldDescription),
    (207, "DeveloperDataId", fieldsDeveloperDataId),
    (268, "DiveSummary", fieldsDiveSummary)]

/-- Modelled from the spec: a decoded raw value (spec 4.B, 4.C; the
base-type and profile-type modules are not under src/).  Integer base
types decode to `uint`/`sint`; strings, floats, byte arrays and the
enumerated profile types are preserved as their raw bytes under their
type name. -/
inductive Value where
  | uint : Nat → Value
  | sint : Int → Value
  | data : String → List Nat → Value
deriving DecidableEq

/-- The numeric reading of a raw value; non-numeric raw values read 0
(the source defines `value()` only at the numeric base types). -/
def Value.toRat : Value → Rat
  | .uint n => n
  | .sint i => i
  | .data _ _ => 0

/-- `profile::messages::Field`: a raw value with the static scale,
offset and units annotations of the profile table. -/
structure Field where
  raw_value : Value
  scale : Option Rat
  offset : Option Rat
  units : Option String
deriving DecidableEq

/-- The `value()` method of the per-type `Field` impls:
`raw / scale.unwrap_or(1) - offset.unwrap_or(0)` (IEEE-754 `f64`
arithmetic modelled exactly over `Rat`). -/
def Field.value (f : Field) : Rat :=
  f.raw_value.toRat / f.scale.getD 1 - f.offset.getD 0

/-- A continuation byte of a UTF-8 sequence. -/
def utf8Cont (b : Nat) : Bool := 0x80 ≤ b && b ≤ 0xBF

/-- Modelled from the spec: UTF-8 validity of a byte run (spec 4.B
requires UTF-8 validation of string fields; the base-type module is not
under src/). -/
def utf8Valid : List Nat → Bool
  | [] => true
  | b1 :: t =>
    if b1 ≤ 0x7F then utf8Valid t else
    match t with
    | [] => false
    | b2 :: t2 =>
      if 0xC2 ≤ b1 && b1 ≤ 0xDF then utf8Cont b2 && utf8Valid t2
      else
        match t2 with
        | [] => false
        | b3 :: t3 =>
          if b1 = 0xE0 then
            (0xA0 ≤ b2 && b2 ≤ 0xBF) && utf8Cont b3 && utf8Valid t3
          else if (0xE1 ≤ b1 && b1 ≤ 0xEC) || b1 = 0xEE || b1 = 0xEF then
            utf8Cont b2 && utf8Cont b3 && utf8Valid t3
          else if b1 = 0xED then
            (0x80 ≤ b2 && b2 ≤ 0x9F) && utf8Cont b3 && utf8Valid t3
          else
            match t3 with
            | [] => false
            | b4 :: t4 =>
              if b1 = 0xF0 then
                (0x90 ≤ b2 && b2 ≤ 0xBF) && utf8Cont b3 && utf8Cont b4 &&
                  utf8Valid t4
              else if 0xF1 ≤ b1 && b1 ≤ 0xF3 then
                utf8Cont b2 && utf8Cont b3 && utf8Cont b4 && utf8Valid t4
              else if b1 = 0xF4 then
                (0x80 ≤ b2 && b2 ≤ 0x8F) && utf8Cont b3 && utf8Cont b4 &&
                  utf8Valid t4
              else false

/-- The first `n` bytes of `l`, zero-filled to length `n`: the content of
a zero-initialised buffer of length `n` after `read` copied
`min (n, l.length)` bytes into it. -/
def takeFill (n : Nat) (l : List Nat) : List Nat :=
  l.take n ++ List.replicate (n - l.length) 0

/-- An unsigned integer from the first `w` bytes of the buffer
(zero-filled), little-endian. -/
def leNum : Nat → List Nat → Nat
  | 0, _ => 0
  | _ + 1, [] => 0
  | w + 1, b :: rest => b + 256 * leNum w rest

/-- An unsigned integer of width `w` in the given byte order. -/
def readNum (en : ByteOrder) (w : Nat) (buffer : List Nat) : Nat :=
  match en with
  | .LittleEndian => leNum w (takeFill w buffer)
  | .BigEndian => leNum w (takeFill w buffer).reverse

/-- Two's-complement reading of a `w`-byte unsigned value. -/
def toSigned (w : Nat) (n : Nat) : Int :=
  if n < 2 ^ (8 * w - 1) then (n : Int) else (n : Int) - 2 ^ (8 * w)

/-- Modelled from the spec: the base-type codecs (spec 4.B; the
`profile::base` and `profile::types` modules are not under src/).
Integer base types decode their width in the requested byte order;
strings trim at the first NUL and fail with `InvalidEncoding` when not
valid UTF-8; floats, byte arrays, booleans and the enumerated profile
types are preserved as raw bytes under their type name. -/
def decodeValue (en : ByteOrder) (ty : String) (buffer : List Nat) :
    Except Error Value :=
  if ty = "Uint8" || ty = "Uint8z" then .ok (.uint (readNum en 1 buffer))
  else if ty = "Uint16" || ty = "Uint16z" then .ok (.uint (readNum en 2 buffer))
  else if ty = "Uint32" || ty = "Uint32z" then .ok (.uint (readNum en 4 buffer))
  else if ty = "Uint64" || ty = "Uint64z" then .ok (.uint (readNum en 8 buffer))
  else if ty = "Sint8" then .ok (.sint (toSigned 1 (readNum en 1 buffer)))
  else if ty = "Sint16" then .ok (.sint (toSigned 2 (readNum en 2 buffer)))
  else if ty = "Sint32" then .ok (.sint (toSigned 4 (readNum en 4 buffer)))
  else if ty = "Sint64" then .ok (.sint (toSigned 8 (readNum en 8 buffer)))
  else if ty = "Utf8String" then
    let trimmed := buffer.takeWhile (· ≠ 0)
    if utf8Valid trimmed then .ok (.data "Utf8String" trimmed)
    else .error .InvalidEncoding
  else .ok (.data ty buffer)

/-- `profile::messages::Message`, flattened: the source's sum of 85
per-message enums is represented by the `(mesg_num, field_def_num)` pair
plus the variant tag, so `Record::Altitude(f)` inside `Message::Record`
becomes `Known 20 2 "Altitude" f`.  `VariantUnknown` is the per-message
`Unknown { data, field_def_num }` variant (tagged with its message
number), `Unknown` is the top-level
`Message::Unknown { data, mesg_num, field_def_num }`. -/
inductive profile.Message where
  | Known : (mesg_num : Nat) → (field_def_num : Nat) → (variant : String) →
      Field → profile.Message
  | VariantUnknown : (mesg_num : Nat) → (data : List Nat) →
      (field_def_num : Nat) → profile.Message
  | Unknown : (data : List Nat) → (mesg_num : Nat) → (field_def_num : Nat) →
      profile.Message
deriving DecidableEq

/-- `profile::messages::Message::decode`: the outer `match mesg_num`
falls through to `Message::Unknown`; each per-message `match
field_def_num` falls through to that message's `Unknown` variant; a
recognized pair decodes the table's typed field with the table's scale,
offset and units. -/
def profile.Message.decode (en : ByteOrder) (buffer : List Nat)
    (mesg_num : Nat) (field_def_num : Nat) : Except Error profile.Message :=
  match profileTable.lookup mesg_num with
  | none => .ok (.Unknown buffer mesg_num field_def_num)
  | some (_, fields) =>
    match fields.lookup field_def_num with
    | none => .ok (.VariantUnknown mesg_num buffer field_def_num)
    | some fs =>
      match decodeValue en fs.ty buffer with
      | .error e => .error e
      | .ok v =>
        .ok (.Known mesg_num field_def_num fs.variant
          { raw_value := v, scale := fs.scale, offset := fs.offset,
            units := fs.units })

/-- `types::record::Data`: the list of decoded profile messages of one
data record. -/
structure Data where
  messages : List profile.Message
deriving DecidableEq

/-- The field loop of `Data::decode`: for each field definition in order,
read `size` bytes into a zero-initialised buffer with the non-erroring
`read` and decode the buffer through the profile table. -/
def decodeDataFields (en : ByteOrder) (global_mesg_num : Nat) :
    List FieldDefinition → Rd → Except Error (List profile.Message × Rd)
  | [], rd => .ok ([], rd)
  | fd :: fds, rd =>
    let buffer := takeFill fd.size rd
    let rd := rd.drop fd.size
    match profile.Message.decode en buffer global_mesg_num fd.num with
    | .error e => .error e
    | .ok m =>
      match decodeDataFields en global_mesg_num fds rd with
      | .error e => .error e
      | .ok (ms, rd) => .ok (m :: ms, rd)

/-- `Data::decode`: the regular fields in definition order, then — when
the definition stored developer-field definitions — the developer fields
in definition order. -/
def Data.decode (en : ByteOrder) (definition : Definition) (rd : Rd) :
    Except Error (Data × Rd) :=
  match decodeDataFields en definition.global_mesg_num definition.field_defs rd with
  | .error e => .error e
  | .ok (messages, rd) =>
    match definition.devfield_defs with
    | some devfield_defs =>
      match decodeDataFields en definition.global_mesg_num devfield_defs rd with
      | .error e => .error e
      | .ok (devmessages, rd) => .ok ({ messages := messages ++ devmessages }, rd)
    | none => .ok ({ messages }, rd)

/-- `types::record::Message`: the content of one record. -/
inductive Message where
  | Definition : GarminFit.Definition → Message
  | Data : GarminFit.Data → Message
  | CompressedTimestamp : Message
deriving DecidableEq

/-- `types::record::Record`: header plus content. -/
structure Record where
  header : Header
  content : Message
deriving DecidableEq

/-- The local-message definition table (`HashMap<u8, Definition>` of the
driver), passed to `Record::decode` by shared reference: an association
list looked up by local message number. -/
abbrev LocalMesgs := List (Nat × Definition)

/-- `Record::decode`: decode the header (wrapping failures with the
`header` context), then dispatch.  A definition header decodes a
`Definition` (wrapping failures with the `definition message` context);
a data header looks its local message number up in the table — failing
with `MissingDefinition` when absent — and decodes the data with the
byte order of the stored definition's architecture (wrapping failures
with the `data message` context); a compressed-timestamp header consumes
nothing further. -/
def Record.decode (rd : Rd) (local_mesgs : LocalMesgs) :
    Except Error (Record × Rd) :=
  match emap (.Decoding "header") (Header.decode rd) with
  | .error e => .error e
  | .ok (header, rd) =>
    match header with
    | .Definition _ has_dev_fields =>
      match emap (.Decoding "definition message")
          (Definition.decode has_dev_fields rd) with
      | .error e => .error e
      | .ok (d, rd) => .ok ({ header, content := .Definition d }, rd)
    | .Data local_mesg_num =>
      match local_mesgs.lookup local_mesg_num with
      | none => .error (.MissingDefinition local_mesg_num)
      | some definition =>
        match emap (.Decoding "data message")
            (Data.decode definition.arch.byteOrder definition rd) with
        | .error e => .error e
        | .ok (dataMsg, rd) => .ok ({ header, content := .Data dataMsg }, rd)
    | .CompressedTimestamp _ _ => .ok ({ header, content := .CompressedTimestamp }, rd)

/-- Flatten field-definition triples `(num, size, base type)` to their
3-byte wire form, for stating `Definition::decode`'s layout. -/
def encodeFieldDefs : List (Nat × Nat × Nat) → List Nat
  | [] => []
  | (a, b, c) :: rest => a :: b :: c :: encodeFieldDefs rest

/-- The `FieldDefinition` a regular-field triple decodes to. -/
def mkFieldDef : Nat × Nat × Nat → FieldDefinition
  | (a, b, c) => { num := a, size := b, base_type_num := c }

/-- The `FieldDefinition` a developer-field triple is stored as:
field number 255, the declared size, base type 13. -/
def mkDevFieldDef : Nat × Nat × Nat → FieldDefinition
  | (_, b, _) => { num := 255, size := b, base_type_num := 13 }

/-- The buffers the field loop of `Data::decode` reads for the given
declared sizes, each zero-filled to its declared size, together with the
remaining input. -/
def readBuffers : List Nat → Rd → List (List Nat) × Rd
  | [], rd => ([], rd)
  | s :: sizes, rd =>
    (takeFill s rd :: (readBuffers sizes (rd.drop s)).1,
     (readBuffers sizes (rd.drop s)).2)

/-- Interpret each element of a list, failing on the first failure — the
success/failure behaviour of the field loops of `Data::decode`. -/
def mapOrFail (f : α → Except Error β) : List α → Except Error (List β)
  | [] => .ok []
  | a :: l =>
    match f a with
    | .error e => .error e
    | .ok b =>
      match mapOrFail f l with
      | .error e => .error e
      | .ok bs => .ok (b :: bs)

/-- Pair each field definition with the buffer read for it, for stating
the field loop of `Data::decode`. -/
def zipPairs : List FieldDefinition → List (List Nat) →
    List (FieldDefinition × List Nat)
  | fd :: fds, buf :: bufs => (fd, buf) :: zipPairs fds bufs
  | _, _ => []

/-- The `Unknown`-shaped profile message for a buffer passed with field
number 255: the top-level `Message::Unknown` when the global message
number is not in the profile table, the per-message `Unknown` variant
when it is. -/
def unknownFor (global_mesg_num : Nat) (buffer : List Nat) :
    profile.Message :=
  match profileTable.lookup global_mesg_num with
  | none => .Unknown buffer global_mesg_num 255
  | some _ => .VariantUnknown global_mesg_num buffer 255

/-- All field definitions of a stored definition, regular first and
developer after, both in definition order. -/
def Definition.allDefs (d : Definition) : List FieldDefinition :=
  d.field_defs ++ (d.devfield_defs.getD [])

/-! Supporting lemmas. -/

theorem bit_range_0_3 (b : Nat) : bit_range b 0 3 = b % 16 := by
  simp [bit_range, Nat.shiftRight_zero]

theorem bit_range_5_6 (b : Nat) : bit_range b 5 6 = b / 32 % 4 := by
  simp [bit_range, Nat.shiftRight_eq_div_pow]

theorem bit_range_0_4 (b : Nat) : bit_range b 0 4 = b % 32 := by
  simp [bit_range, Nat.shiftRight_zero]

theorem header_decode_definition (b : Nat) (rest : Rd)
    (h7 : b.testBit 7 = false) (h6 : b.testBit 6 = true) :
    Header.decode (b :: rest) = .ok (.Definition (b % 16) (b.testBit 5), rest) := by
  simp [Header.decode, readU8, bit_not_set, bit_is_set, h7, h6, bit_range_0_3]

theorem header_decode_data (b : Nat) (rest : Rd)
    (h7 : b.testBit 7 = false) (h6 : b.testBit 6 = false) :
    Header.decode (b :: rest) = .ok (.Data (b % 16), rest) := by
  simp [Header.decode, readU8, bit_not_set, bit_is_set, h7, h6, bit_range_0_3]

theorem header_decode_compressed (b : Nat) (rest : Rd)
    (h7 : b.testBit 7 = true) :
    Header.decode (b :: rest) =
      .ok (.CompressedTimestamp (b / 32 % 4) (b % 32), rest) := by
  simp [Header.decode, readU8, bit_not_set, bit_is_set, h7, bit_range_5_6,
    bit_range_0_4]

theorem record_decode_compressed (b : Nat) (rest : Rd) (tbl : LocalMesgs)
    (h7 : b.testBit 7 = true) :
    Record.decode (b :: rest) tbl =
      .ok ({ header := .CompressedTimestamp (b / 32 % 4) (b % 32),
             content := .CompressedTimestamp }, rest) := by
  simp [Record.decode, header_decode_compressed b rest h7, emap]

theorem record_decode_definition_header (b : Nat) (rest : Rd) (tbl : LocalMesgs)
    (h7 : b.testBit 7 = false) (h6 : b.testBit 6 = true) :
    Record.decode (b :: rest) tbl =
      (match Definition.decode (b.testBit 5) rest with
       | .error e => .error (.Decoding "definition message" e)
       | .ok (d, rd) =>
         .ok ({ header := .Definition (b % 16) (b.testBit 5),
                content := .Definition d }, rd)) := by
  simp only [Record.decode, header_decode_definition b rest h7 h6, emap]
  cases Definition.decode (b.testBit 5) rest with
  | error e => rfl
  | ok v => rfl

theorem record_decode_data_header (b : Nat) (rest : Rd) (tbl : LocalMesgs)
    (h7 : b.testBit 7 = false) (h6 : b.testBit 6 = false) :
    Record.decode (b :: rest) tbl =
      (match tbl.lookup (b % 16) with
       | none => .error (.MissingDefinition (b % 16))
       | some d =>
         match Data.decode d.arch.byteOrder d rest with
         | .error e => .error (.Decoding "data message" e)
         | .ok (dataMsg, rd) =>
           .ok ({ header := .Data (b % 16), content := .Data dataMsg }, rd)) := by
  simp only [Record.decode, header_decode_data b rest h7 h6, emap]
  cases tbl.lookup (b % 16) with
  | none => rfl
  | some d =>
    dsimp only
    cases Data.decode d.arch.byteOrder d rest with
    | error e => rfl
    | ok v => rfl

theorem decodeFieldDefs_encode_false (i : Nat) (fds : List (Nat × Nat × Nat))
    (rest : Rd) :
    decodeFieldDefs false i fds.length (encodeFieldDefs fds ++ rest) =
      .ok (fds.map mkFieldDef, rest) := by
  induction fds generalizing i rest with
  | nil => simp [decodeFieldDefs, encodeFieldDefs]
  | cons hd t ih =>
    obtain ⟨a, b, c⟩ := hd
    simp [decodeFieldDefs, encodeFieldDefs, FieldDefinition.decode, readU8,
      emap, mkFieldDef, ih]

theorem decodeFieldDefs_encode_true (i : Nat) (fds : List (Nat × Nat × Nat))
    (rest : Rd) :
    decodeFieldDefs true i fds.length (encodeFieldDefs fds ++ rest) =
      .ok (fds.map mkDevFieldDef, rest) := by
  induction fds generalizing i rest with
  | nil => simp [decodeFieldDefs, encodeFieldDefs]
  | cons hd t ih =>
    obtain ⟨a, b, c⟩ := hd
    simp [decodeFieldDefs, encodeFieldDefs, FieldDefinition.decode, readU8,
      emap, mkDevFieldDef, ih]

theorem takeFill_length (n : Nat) (l : List Nat) : (takeFill n l).length = n := by
  simp [takeFill]
  omega

theorem readBuffers_snd (sizes : List Nat) (rd : Rd) :
    (readBuffers sizes rd).2 = rd.drop sizes.sum := by
  induction sizes generalizing rd with
  | nil => simp [readBuffers]
  | cons s t ih => simp [readBuffers, ih, List.drop_drop]

theorem readBuffers_fst_length (sizes : List Nat) (rd : Rd) :
    (readBuffers sizes rd).1.length = sizes.length := by
  induction sizes generalizing rd with
  | nil => simp [readBuffers]
  | cons s t ih => simp [readBuffers, ih]

theorem readBuffers_fst_append (s1 s2 : List Nat) (rd : Rd) :
    (readBuffers (s1 ++ s2) rd).1 =
      (readBuffers s1 rd).1 ++ (readBuffers s2 (rd.drop s1.sum)).1 := by
  induction s1 generalizing rd with
  | nil => simp [readBuffers]
  | cons s t ih => simp [readBuffers, ih, List.drop_drop]

theorem mapOrFail_length {α β : Type} (f : α → Except Error β) (l : List α)
    (bs : List β) (h : mapOrFail f l = .ok bs) : bs.length = l.length := by
  induction l generalizing bs with
  | nil =>
    simp [mapOrFail] at h
    simp [← h]
  | cons a t ih =>
    simp only [mapOrFail] at h
    cases hf : f a with
    | error e => rw [hf] at h; exact absurd h (by simp)
    | ok b =>
      rw [hf] at h
      cases hm : mapOrFail f t with
      | error e => rw [hm] at h; exact absurd h (by simp)
      | ok bs' =>
        rw [hm] at h
        cases h
        simp [ih bs' hm]

theorem mapOrFail_append {α β : Type} (f : α → Except Error β) (l1 l2 : List α) :
    mapOrFail f (l1 ++ l2) =
      (match mapOrFail f l1 with
       | .error e => .error e
       | .ok b1 =>
         match mapOrFail f l2 with
         | .error e => .error e
         | .ok b2 => .ok (b1 ++ b2)) := by
  induction l1 with
  | nil =>
    simp only [List.nil_append, mapOrFail]
    cases mapOrFail f l2 with
    | error e => rfl
    | ok b2 => rfl
  | cons a t ih =>
    simp only [List.cons_append, mapOrFail, List.append_eq]
    rw [ih]
    cases f a with
    | error e => rfl
    | ok b =>
      dsimp only
      cases mapOrFail f t with
      | error e => rfl
      | ok b1 =>
        dsimp only
        cases mapOrFail f l2 with
        | error e => rfl
        | ok b2 => rfl

theorem zipPairs_length (fds : List FieldDefinition) (bufs : List (List Nat))
    (h : fds.length = bufs.length) : (zipPairs fds bufs).length = fds.length := by
  induction fds generalizing bufs with
  | nil => simp [zipPairs]
  | cons fd t ih =>
    cases bufs with
    | nil => simp at h
    | cons b bs =>
      simp only [List.length_cons] at h
      simp [zipPairs, ih bs (by omega)]

theorem zipPairs_append (fds1 fds2 : List FieldDefinition)
    (bufs1 bufs2 : List (List Nat)) (h : fds1.length = bufs1.length) :
    zipPairs (fds1 ++ fds2) (bufs1 ++ bufs2) =
      zipPairs fds1 bufs1 ++ zipPairs fds2 bufs2 := by
  induction fds1 generalizing bufs1 with
  | nil =>
    cases bufs1 with
    | nil => simp [zipPairs]
    | cons b bs => simp at h
  | cons fd t ih =>
    cases bufs1 with
    | nil => simp at h
    | cons b bs =>
      simp only [List.length_cons] at h
      simp [zipPairs, ih bs (by omega)]

theorem decodeDataFields_eq (en : ByteOrder) (g : Nat)
    (fds : List FieldDefinition) (rd : Rd) :
    decodeDataFields en g fds rd =
      (match mapOrFail
          (fun p : FieldDefinition × List Nat =>
            profile.Message.decode en p.2 g p.1.num)
          (zipPairs fds (readBuffers (fds.map FieldDefinition.size) rd).1) with
       | .error e => .error e
       | .ok ms => .ok (ms, rd.drop (fds.map FieldDefinition.size).sum)) := by
  induction fds generalizing rd with
  | nil => simp [decodeDataFields, mapOrFail, readBuffers, zipPairs]
  | cons fd t ih =>
    simp only [decodeDataFields, List.map_cons, readBuffers, zipPairs,
      mapOrFail, List.sum_cons]
    cases profile.Message.decode en (takeFill fd.size rd) g fd.num with
    | error e => rfl
    | ok m =>
      dsimp only
      rw [ih (rd.drop fd.size)]
      cases mapOrFail
          (fun p : FieldDefinition × List Nat =>
            profile.Message.decode en p.2 g p.1.num)
          (zipPairs t (readBuffers (t.map FieldDefinition.size) (rd.drop fd.size)).1) with
      | error e => rfl
      | ok ms =>
        dsimp only
        rw [List.drop_drop]

theorem decodeValue_error_eq (en : ByteOrder) (ty : String) (buf : List Nat)
    (e : Error) (h : decodeValue en ty buf = .error e) : e = .InvalidEncoding := by
  unfold decodeValue at h
  dsimp only at h
  repeat' split at h
  all_goals first
    | (simp only [Except.error.injEq] at h; exact h.symm)
    | exact absurd h (by simp)

theorem message_decode_of_lookup_none (en : ByteOrder) (buf : List Nat)
    (g f : Nat) (hg : profileTable.lookup g = none) :
    profile.Message.decode en buf g f = .ok (.Unknown buf g f) := by
  unfold profile.Message.decode
  rw [hg]

theorem message_decode_of_field_none (en : ByteOrder) (buf : List Nat)
    (g f : Nat) (name : String) (fields : List (Nat × FieldSpec))
    (hg : profileTable.lookup g = some (name, fields))
    (hf : fields.lookup f = none) :
    profile.Message.decode en buf g f = .ok (.VariantUnknown g buf f) := by
  unfold profile.Message.decode
  rw [hg]
  dsimp only
  rw [hf]

theorem message_decode_of_field_some (en : ByteOrder) (buf : List Nat)
    (g f : Nat) (name : String) (fields : List (Nat × FieldSpec))
    (fs : FieldSpec) (hg : profileTable.lookup g = some (name, fields))
    (hf : fields.lookup f = some fs) :
    profile.Message.decode en buf g f =
      (match decodeValue en fs.ty buf with
       | .error e => .error e
       | .ok v =>
         .ok (.Known g f fs.variant
           { raw_value := v, scale := fs.scale, offset := fs.offset,
             units := fs.units })) := by
  unfold profile.Message.decode
  rw [hg]
  dsimp only
  rw [hf]

theorem message_decode_error_eq (en : ByteOrder) (buf : List Nat) (g f : Nat)
    (e : Error) (h : profile.Message.decode en buf g f = .error e) :
    e = .InvalidEncoding := by
  cases hg : profileTable.lookup g with
  | none =>
    rw [message_decode_of_lookup_none en buf g f hg] at h
    exact absurd h (by simp)
  | some v =>
    obtain ⟨name, fields⟩ := v
    cases hf : fields.lookup f with
    | none =>
      rw [message_decode_of_field_none en buf g f name fields hg hf] at h
      exact absurd h (by simp)
    | some fs =>
      rw [message_decode_of_field_some en buf g f name fields fs hg hf] at h
      cases hv : decodeValue en fs.ty buf with
      | error e2 =>
        rw [hv] at h
        simp only [Except.error.injEq] at h
        subst h
        exact decodeValue_error_eq en fs.ty buf e2 hv
      | ok val =>
        rw [hv] at h
        exact absurd h (by simp)

theorem mapOrFail_error_eq (en : ByteOrder) (g : Nat)
    (l : List (FieldDefinition × List Nat)) (e : Error)
    (h : mapOrFail
        (fun p : FieldDefinition × List Nat =>
          profile.Message.decode en p.2 g p.1.num) l = .error e) :
    e = .InvalidEncoding := by
  induction l with
  | nil => exact absurd h (by simp [mapOrFail])
  | cons a t ih =>
    simp only [mapOrFail] at h
    cases hf : profile.Message.decode en a.2 g a.1.num with
    | error e2 =>
      rw [hf] at h
      simp only [Except.error.injEq] at h
      subst h
      exact message_decode_error_eq en a.2 g a.1.num e2 hf
    | ok m =>
      rw [hf] at h
      cases hm : mapOrFail
          (fun p : FieldDefinition × List Nat =>
            profile.Message.decode en p.2 g p.1.num) t with
      | error e2 =>
        rw [hm] at h
        simp only [Except.error.injEq] at h
        subst h
        exact ih hm
      | ok ms => rw [hm] at h; exact absurd h (by simp)

theorem decodeDataFields_error_eq (en : ByteOrder) (g : Nat)
    (fds : List FieldDefinition) (rd : Rd) (e : Error)
    (h : decodeDataFields en g fds rd = .error e) : e = .InvalidEncoding := by
  rw [decodeDataFields_eq] at h
  cases hm : mapOrFail
      (fun p : FieldDefinition × List Nat =>
        profile.Message.decode en p.2 g p.1.num)
      (zipPairs fds (readBuffers (fds.map FieldDefinition.size) rd).1) with
  | error e2 =>
    rw [hm] at h
    simp only [Except.error.injEq] at h
    subst h
    exact mapOrFail_error_eq en g _ e2 hm
  | ok ms => rw [hm] at h; exact absurd h (by simp)

theorem profileTable_no_255 :
    profileTable.all (fun e => (e.2.2.lookup 255).isNone) = true := by decide

theorem all_lookup {α : Type} {β : Type} [BEq α] [LawfulBEq α]
    {l : List (α × β)} {p : α × β → Bool} (h : l.all p = true) {a : α} {b : β}
    (hl : l.lookup a = some b) : p (a, b) = true := by
  induction l with
  | nil => simp [List.lookup] at hl
  | cons hd tl ih =>
    rw [List.all_cons, Bool.and_eq_true] at h
    obtain ⟨hhd, htl⟩ := h
    obtain ⟨k, v⟩ := hd
    rw [List.lookup_cons] at hl
    cases hbeq : a == k with
    | true =>
      rw [hbeq] at hl
      cases hl
      have : a = k := eq_of_beq hbeq
      subst this
      exact hhd
    | false => rw [hbeq] at hl; exact ih htl hl

theorem message_decode_255 (en : ByteOrder) (buf : List Nat) (g : Nat) :
    profile.Message.decode en buf g 255 = .ok (unknownFor g buf) := by
  cases hg : profileTable.lookup g with
  | none =>
    rw [message_decode_of_lookup_none en buf g 255 hg]
    unfold unknownFor
    rw [hg]
  | some v =>
    obtain ⟨name, fields⟩ := v
    have h255 : fields.lookup 255 = none := by
      have := all_lookup profileTable_no_255 hg
      simpa using this
    rw [message_decode_of_field_none en buf g 255 name fields hg h255]
    unfold unknownFor
    rw [hg]

theorem decodeDataFields_dev255 (en : ByteOrder) (g : Nat) (sizes : List Nat)
    (rd : Rd) :
    decodeDataFields en g
        (sizes.map (fun s => { num := 255, size := s, base_type_num := 13 })) rd =
      .ok ((readBuffers sizes rd).1.map (unknownFor g), rd.drop sizes.sum) := by
  induction sizes generalizing rd with
  | nil => simp [decodeDataFields, readBuffers]
  | cons s t ih =>
    simp [decodeDataFields, readBuffers, message_decode_255, ih,
      List.drop_drop]

/-! Example fixtures used by concrete statements. -/

/-- A little-endian definition of global message 20 (`Record`) with one
field: field number 2 (`Altitude`), size 2, base type id 132 (uint16). -/
def dAltLE : Definition :=
  { arch := .LittleEndian, global_mesg_num := 20, nfields := 1,
    field_defs := [{ num := 2, size := 2, base_type_num := 132 }],
    ndevfields := none, devfield_defs := none }

/-- The big-endian counterpart of `dAltLE`. -/
def dAltBE : Definition :=
  { arch := .BigEndian, global_mesg_num := 20, nfields := 1,
    field_defs := [{ num := 2, size := 2, base_type_num := 132 }],
    ndevfields := none, devfield_defs := none }

/-- `dAltLE` extended with one stored developer-field definition of
declared size 3. -/
def dAltDev : Definition :=
  { arch := .LittleEndian, global_mesg_num := 20, nfields := 1,
    field_defs := [{ num := 2, size := 2, base_type_num := 132 }],
    ndevfields := some 1,
    devfield_defs := some [{ num := 255, size := 3, base_type_num := 13 }] }

/-! The claims. -/

/-- Claim C1: record-header decode is a total three-way dispatch on the
single header byte.  Bit 7 clear and bit 6 set gives a Definition header
with local message number bits 3..0 and dev-fields flag bit 5; bits 7
and 6 both clear give a Data header with local message number bits 3..0;
bit 7 set gives a CompressedTimestamp header with local message number
bits 6..5 and time offset bits 4..0, and for it `Record.decode` consumes
no bytes beyond the header byte. -/
theorem header_decode_three_way_dispatch :
    (∀ (b : Nat) (rest : Rd), b.testBit 7 = false → b.testBit 6 = true →
      Header.decode (b :: rest) =
        .ok (.Definition (b % 16) (b.testBit 5), rest))
  ∧ (∀ (b : Nat) (rest : Rd), b.testBit 7 = false → b.testBit 6 = false →
      Header.decode (b :: rest) = .ok (.Data (b % 16), rest))
  ∧ (∀ (b : Nat) (rest : Rd), b.testBit 7 = true →
      Header.decode (b :: rest) =
        .ok (.CompressedTimestamp (b / 32 % 4) (b % 32), rest))
  ∧ (∀ (b : Nat) (rest : Rd) (tbl : LocalMesgs), b.testBit 7 = true →
      Record.decode (b :: rest) tbl =
        .ok ({ header := .CompressedTimestamp (b / 32 % 4) (b % 32),
               content := .CompressedTimestamp }, rest)) :=
  ⟨header_decode_definition, header_decode_data, header_decode_compressed,
   record_decode_compressed⟩

/-- Witness for C1 at the spec's example byte 0xA3: a compressed-timestamp
record with local message number 1 and offset 3 s, leaving the rest of
the input untouched. -/
theorem header_decode_three_way_dispatch_witness :
    Record.decode [163, 7, 8] [] =
      .ok ({ header := .CompressedTimestamp 1 3,
             content := .CompressedTimestamp }, [7, 8]) :=
  (header_decode_three_way_dispatch.2.2.2 163 [7, 8] [] (by decide)).trans
    (by decide)

/-- Claim C2: a data record is decoded with exactly the byte order named
by the architecture of the definition stored under its local message
number, and with nothing else; little- and big-endian definitions on
different slots decode independently and correctly ([1, 2] reads as
513 under the little-endian slot and as 258 under the big-endian one). -/
theorem data_record_endian_from_definition :
    (∀ (b : Nat) (rest : Rd) (tbl : LocalMesgs) (d : Definition),
      b.testBit 7 = false → b.testBit 6 = false →
      tbl.lookup (b % 16) = some d →
      Record.decode (b :: rest) tbl =
        (match Data.decode d.arch.byteOrder d rest with
         | .error e => .error (.Decoding "data message" e)
         | .ok (dataMsg, rd) =>
           .ok ({ header := .Data (b % 16), content := .Data dataMsg }, rd)))
  ∧ Record.decode [0, 1, 2] [(0, dAltLE), (1, dAltBE)] =
      .ok ({ header := .Data 0,
             content := .Data { messages :=
               [.Known 20 2 "Altitude"
                 { raw_value := .uint 513, scale := some 5, offset := some 500,
                   units := some "m" }] } }, [])
  ∧ Record.decode [1, 1, 2] [(0, dAltLE), (1, dAltBE)] =
      .ok ({ header := .Data 1,
             content := .Data { messages :=
               [.Known 20 2 "Altitude"
                 { raw_value := .uint 258, scale := some 5, offset := some 500,
                   units := some "m" }] } }, []) := by
  refine ⟨fun b rest tbl d h7 h6 hl => ?_, by decide, by decide⟩
  rw [record_decode_data_header b rest tbl h7 h6, hl]

/-- Witness for C2: a data record on slot 1 decodes through the stored
little-endian definition. -/
theorem data_record_endian_from_definition_witness :
    Record.decode [1, 196, 9] [(1, dAltLE)] =
      .ok ({ header := .Data 1,
             content := .Data { messages :=
               [.Known 20 2 "Altitude"
                 { raw_value := .uint 2500, scale := some 5, offset := some 500,
                   units := some "m" }] } }, []) :=
  (data_record_endian_from_definition.1 1 [196, 9] [(1, dAltLE)] dAltLE
    (by decide) (by decide) (by decide)).trans (by decide)

/-- Counterexample to C3 as stated: one field of declared size 2 with only
one byte remaining does not fail with UnexpectedEof — the decoder
succeeds, interpreting the zero-padded buffer [196, 0] as 196. -/
theorem data_decode_short_read_counterexample :
    Data.decode .LittleEndian dAltLE [196] =
      .ok ({ messages :=
        [.Known 20 2 "Altitude"
          { raw_value := .uint 196, scale := some 5, offset := some 500,
            units := some "m" }] }, []) := by decide

/-- Claim C3 (amended): for each field definition in order the decoder
fills a zero-initialised buffer of the declared size with
`min (size, remaining)` input bytes through the non-erroring `read` and
interprets the zero-padded buffer; a short read at end of stream is not
an error, and the only decoding failure `Data.decode` can produce is
`InvalidEncoding`. -/
theorem data_decode_zero_padded_read :
    (∀ (en : ByteOrder) (arch : Architecture) (g n : Nat)
       (fds : List FieldDefinition) (rd : Rd),
      Data.decode en
          { arch, global_mesg_num := g, nfields := n, field_defs := fds,
            ndevfields := none, devfield_defs := none } rd =
        (match mapOrFail
            (fun p : FieldDefinition × List Nat =>
              profile.Message.decode en p.2 g p.1.num)
            (zipPairs fds (readBuffers (fds.map FieldDefinition.size) rd).1) with
         | .error e => .error e
         | .ok ms =>
           .ok ({ messages := ms }, rd.drop (fds.map FieldDefinition.size).sum)))
  ∧ (∀ (en : ByteOrder) (d : Definition) (rd : Rd) (e : Error),
      Data.decode en d rd = .error e → e = .InvalidEncoding) := by
  constructor
  · intro en arch g n fds rd
    show (match decodeDataFields en g fds rd with
          | Except.error e => Except.error e
          | Except.ok (messages, rd) => Except.ok (Data.mk messages, rd)) = _
    rw [decodeDataFields_eq]
    cases mapOrFail
        (fun p : FieldDefinition × List Nat =>
          profile.Message.decode en p.2 g p.1.num)
        (zipPairs fds (readBuffers (fds.map FieldDefinition.size) rd).1) with
    | error e => rfl
    | ok ms => rfl
  · intro en d rd e h
    unfold Data.decode at h
    cases h1 : decodeDataFields en d.global_mesg_num d.field_defs rd with
    | error e1 =>
      rw [h1] at h
      simp only [Except.error.injEq] at h
      subst h
      exact decodeDataFields_error_eq en d.global_mesg_num d.field_defs rd e1 h1
    | ok p =>
      obtain ⟨ms, rd1⟩ := p
      rw [h1] at h
      cases hdev : d.devfield_defs with
      | none => rw [hdev] at h; exact absurd h (by simp)
      | some devs =>
        rw [hdev] at h
        dsimp only at h
        cases h2 : decodeDataFields en d.global_mesg_num devs rd1 with
        | error e2 =>
          rw [h2] at h
          simp only [Except.error.injEq] at h
          subst h
          exact decodeDataFields_error_eq en d.global_mesg_num devs rd1 e2 h2
        | ok p2 => rw [h2] at h; exact absurd h (by simp)

/-- Witness for C3's amended statement: a stored `ProductName` string
field (global message 0, field 8) whose buffer is the invalid UTF-8 byte
0xFF makes `Data.decode` fail, and the theorem pins that failure to
`InvalidEncoding`. -/
theorem data_decode_zero_padded_read_witness :
    Data.decode .LittleEndian
        { arch := .LittleEndian, global_mesg_num := 0, nfields := 1,
          field_defs := [{ num := 8, size := 1, base_type_num := 7 }],
          ndevfields := none, devfield_defs := none } [255] =
      .error .InvalidEncoding
  ∧ (Error.InvalidEncoding = Error.InvalidEncoding) :=
  ⟨by decide,
   data_decode_zero_padded_read.2 .LittleEndian
     { arch := .LittleEndian, global_mesg_num := 0, nfields := 1,
       field_defs := [{ num := 8, size := 1, base_type_num := 7 }],
       ndevfields := none, devfield_defs := none } [255] .InvalidEncoding
     (by decide)⟩

/-- Claim C4: profile decoding never fails on unrecognized identifiers: a
global message number outside the profile table yields
`Message::Unknown` carrying the whole buffer, a recognized message with
an unrecognized field definition number yields that message's own
`Unknown` variant carrying the buffer and the field number, and the
buffer a data record hands over always has exactly the declared size. -/
theorem message_decode_unknown_preserved :
    (∀ (en : ByteOrder) (buffer : List Nat) (mesg field : Nat),
      profileTable.lookup mesg = none →
      profile.Message.decode en buffer mesg field =
        .ok (.Unknown buffer mesg field))
  ∧ (∀ (en : ByteOrder) (buffer : List Nat) (mesg field : Nat)
       (name : String) (fields : List (Nat × FieldSpec)),
      profileTable.lookup mesg = some (name, fields) →
      fields.lookup field = none →
      profile.Message.decode en buffer mesg field =
        .ok (.VariantUnknown mesg buffer field))
  ∧ (∀ (size : Nat) (rd : Rd), (takeFill size rd).length = size) :=
  ⟨fun en buffer mesg field hg =>
     message_decode_of_lookup_none en buffer mesg field hg,
   fun en buffer mesg field name fields hg hf =>
     message_decode_of_field_none en buffer mesg field name fields hg hf,
   takeFill_length⟩

/-- Witness for C4: global message 999 is not in the profile (top-level
`Unknown`), and field 250 of `FileId` (message 0) is unrecognized
(per-message `Unknown`). -/
theorem message_decode_unknown_preserved_witness :
    profile.Message.decode .LittleEndian [9] 999 3 = .ok (.Unknown [9] 999 3)
  ∧ profile.Message.decode .LittleEndian [9] 0 250 =
      .ok (.VariantUnknown 0 [9] 250) :=
  ⟨message_decode_unknown_preserved.1 .LittleEndian [9] 999 3 (by decide),
   message_decode_unknown_preserved.2.1 .LittleEndian [9] 0 250 "FileId"
     fieldsFileId (by decide) (by decide)⟩

/-- Claim C5: the observable `value()` of a numeric field is
`raw / (scale default 1) − (offset default 0)`, and a `Record` (message
20) `Altitude` field decoded from raw little-endian u16 bytes [196, 9]
(that is 2500) carries scale 5 and offset 500 and reports `value() = 0`. -/
theorem field_value_scale_offset :
    (∀ (v : Nat) (s o : Option Rat) (u : Option String),
      Field.value { raw_value := .uint v, scale := s, offset := o, units := u } =
        (v : Rat) / s.getD 1 - o.getD 0)
  ∧ (∀ (v : Int) (s o : Option Rat) (u : Option String),
      Field.value { raw_value := .sint v, scale := s, offset := o, units := u } =
        (v : Rat) / s.getD 1 - o.getD 0)
  ∧ profile.Message.decode .LittleEndian [196, 9] 20 2 =
      .ok (.Known 20 2 "Altitude"
        { raw_value := .uint 2500, scale := some 5, offset := some 500,
          units := some "m" })
  ∧ Field.value
      { raw_value := .uint 2500, scale := some 5, offset := some 500,
        units := some "m" } = 0 :=
  ⟨fun v s o u => rfl, fun v s o u => rfl, by decide,
   by norm_num [Field.value, Value.toRat]⟩

/-- Claim C6: a data-record header whose local message number is absent
from the definition table fails with `MissingDefinition` of that number,
whatever the payload bytes are — none of them is consumed or decoded. -/
theorem record_decode_missing_definition :
    ∀ (b : Nat) (rest : Rd) (tbl : LocalMesgs),
      b.testBit 7 = false → b.testBit 6 = false →
      tbl.lookup (b % 16) = none →
      Record.decode (b :: rest) tbl = .error (.MissingDefinition (b % 16)) := by
  intro b rest tbl h7 h6 hl
  rw [record_decode_data_header b rest tbl h7 h6, hl]

/-- Witness for C6: local message number 5 with an empty table. -/
theorem record_decode_missing_definition_witness :
    Record.decode [5, 1, 2] [] = .error (.MissingDefinition 5) :=
  (record_decode_missing_definition 5 [1, 2] [] (by decide) (by decide)
    (by decide)).trans (by decide)

/-- Claim C7: definition decode consumes a reserved byte (value ignored),
an architecture byte failing with `UnknownArchitecture(n)` outside
{0, 1}, a 2-byte global message number in the architecture's byte order,
a field count and that many 3-byte field definitions, and — exactly when
the header's dev-fields flag is set — a developer-field count and that
many 3-byte developer-field definitions. -/
theorem definition_decode_layout :
    (∀ (res a : Nat) (rest : Rd) (dev : Bool), a ≠ 0 → a ≠ 1 →
      Definition.decode dev (res :: a :: rest) =
        .error (.UnknownArchitecture a))
  ∧ (∀ (res lo hi : Nat) (fds : List (Nat × Nat × Nat)) (rest : Rd),
      Definition.decode false
          (res :: 0 :: lo :: hi :: fds.length :: (encodeFieldDefs fds ++ rest)) =
        .ok ({ arch := .LittleEndian, global_mesg_num := lo + 256 * hi,
               nfields := fds.length, field_defs := fds.map mkFieldDef,
               ndevfields := none, devfield_defs := none }, rest))
  ∧ (∀ (res b0 b1 : Nat) (fds : List (Nat × Nat × Nat)) (rest : Rd),
      Definition.decode false
          (res :: 1 :: b0 :: b1 :: fds.length :: (encodeFieldDefs fds ++ rest)) =
        .ok ({ arch := .BigEndian, global_mesg_num := 256 * b0 + b1,
               nfields := fds.length, field_defs := fds.map mkFieldDef,
               ndevfields := none, devfield_defs := none }, rest))
  ∧ (∀ (res lo hi : Nat) (fds devs : List (Nat × Nat × Nat)) (rest : Rd),
      Definition.decode true
          (res :: 0 :: lo :: hi :: fds.length ::
            (encodeFieldDefs fds ++
              devs.length :: (encodeFieldDefs devs ++ rest))) =
        .ok ({ arch := .LittleEndian, global_mesg_num := lo + 256 * hi,
               nfields := fds.length, field_defs := fds.map mkFieldDef,
               ndevfields := some devs.length,
               devfield_defs := some (devs.map mkDevFieldDef) }, rest)) := by
  refine ⟨fun res a rest dev ha0 ha1 => ?_, fun res lo hi fds rest => ?_,
    fun res b0 b1 fds rest => ?_, fun res lo hi fds devs rest => ?_⟩
  · obtain ⟨k, rfl⟩ : ∃ k, a = k + 2 := ⟨a - 2, by omega⟩
    simp [Definition.decode, readU8, Architecture.tryFrom]
  · simp [Definition.decode, readU8, readU16, Architecture.tryFrom,
      Architecture.byteOrder, decodeFieldDefs_encode_false]
  · simp [Definition.decode, readU8, readU16, Architecture.tryFrom,
      Architecture.byteOrder, decodeFieldDefs_encode_false]
  · simp [Definition.decode, readU8, readU16, Architecture.tryFrom,
      Architecture.byteOrder, decodeFieldDefs_encode_false,
      decodeFieldDefs_encode_true]

/-- Witness for C7: architecture byte 7 is rejected. -/
theorem definition_decode_layout_witness :
    Definition.decode false [0, 7] = .error (.UnknownArchitecture 7) :=
  (definition_decode_layout.1 0 7 [] false (by decide) (by decide)).trans
    (by decide)

/-- Claim C8: a developer-field definition is stored with field number 255
and the declared size (base type id 13); no profile message recognizes
field number 255, so on data decode each developer field reads its
declared size and is emitted as an `Unknown` field variant — the profile
layer consulted with field number 255 — never as a decoding error. -/
theorem developer_fields_decode_unknown :
    (∀ (n s i : Nat) (rest : Rd),
      FieldDefinition.decode true (n :: s :: i :: rest) =
        .ok ({ num := 255, size := s, base_type_num := 13 }, rest))
  ∧ profileTable.all (fun e => (e.2.2.lookup 255).isNone) = true
  ∧ (∀ (en : ByteOrder) (buffer : List Nat) (g : Nat),
      profile.Message.decode en buffer g 255 = .ok (unknownFor g buffer))
  ∧ (∀ (en : ByteOrder) (arch : Architecture) (g k : Nat)
       (sizes : List Nat) (rd : Rd),
      Data.decode en
          { arch, global_mesg_num := g, nfields := k, field_defs := [],
            ndevfields := some sizes.length,
            devfield_defs := some (sizes.map
              (fun s => { num := 255, size := s, base_type_num := 13 })) } rd =
        .ok ({ messages := (readBuffers sizes rd).1.map (unknownFor g) },
             rd.drop sizes.sum)) := by
  refine ⟨fun n s i rest => rfl, profileTable_no_255, message_decode_255,
    fun en arch g k sizes rd => ?_⟩
  show (match decodeDataFields en g [] rd with
        | Except.error e => Except.error e
        | Except.ok (messages, rd) =>
          match (some (sizes.map
              (fun s => ({ num := 255, size := s, base_type_num := 13 } :
                FieldDefinition))) : Option (List FieldDefinition)) with
          | some devfield_defs =>
            match decodeDataFields en g devfield_defs rd with
            | Except.error e => Except.error e
            | Except.ok (devmessages, rd) =>
              Except.ok (Data.mk (messages ++ devmessages), rd)
          | none => Except.ok (Data.mk messages, rd)) = _
  rw [show decodeDataFields en g [] rd = .ok ([], rd) from rfl]
  dsimp only
  rw [decodeDataFields_dev255]
  simp

/-- Claim C9: the record parser only reads the local-message definition
table: its result depends on the table only through the lookup of the
decoded header's local message number — a definition or
compressed-timestamp record decodes identically under any two tables,
a data record identically under tables agreeing on its slot — and a
decoded definition is returned as record content (for the driver to
store), the parser never storing it itself. -/
theorem record_decode_table_readonly :
    (∀ (rd : Rd) (tbl tbl' : LocalMesgs),
      (∀ n, tbl.lookup n = tbl'.lookup n) →
      Record.decode rd tbl = Record.decode rd tbl')
  ∧ (∀ (b : Nat) (rest : Rd) (tbl tbl' : LocalMesgs), b.testBit 7 = true →
      Record.decode (b :: rest) tbl = Record.decode (b :: rest) tbl')
  ∧ (∀ (b : Nat) (rest : Rd) (tbl tbl' : LocalMesgs),
      b.testBit 7 = false → b.testBit 6 = true →
      Record.decode (b :: rest) tbl = Record.decode (b :: rest) tbl')
  ∧ (∀ (b : Nat) (rest : Rd) (tbl tbl' : LocalMesgs),
      b.testBit 7 = false → b.testBit 6 = false →
      tbl.lookup (b % 16) = tbl'.lookup (b % 16) →
      Record.decode (b :: rest) tbl = Record.decode (b :: rest) tbl')
  ∧ (∀ (b : Nat) (rest : Rd) (tbl : LocalMesgs),
      b.testBit 7 = false → b.testBit 6 = true →
      Record.decode (b :: rest) tbl =
        (match Definition.decode (b.testBit 5) rest with
         | .error e => .error (.Decoding "definition message" e)
         | .ok (d, rd) =>
           .ok ({ header := .Definition (b % 16) (b.testBit 5),
                  content := .Definition d }, rd))) := by
  have hcomp : ∀ (b : Nat) (rest : Rd) (tbl tbl' : LocalMesgs),
      b.testBit 7 = true →
      Record.decode (b :: rest) tbl = Record.decode (b :: rest) tbl' := by
    intro b rest tbl tbl' h7
    rw [record_decode_compressed b rest tbl h7,
      record_decode_compressed b rest tbl' h7]
  have hdef : ∀ (b : Nat) (rest : Rd) (tbl tbl' : LocalMesgs),
      b.testBit 7 = false → b.testBit 6 = true →
      Record.decode (b :: rest) tbl = Record.decode (b :: rest) tbl' := by
    intro b rest tbl tbl' h7 h6
    rw [record_decode_definition_header b rest tbl h7 h6,
      record_decode_definition_header b rest tbl' h7 h6]
  have hdata : ∀ (b : Nat) (rest : Rd) (tbl tbl' : LocalMesgs),
      b.testBit 7 = false → b.testBit 6 = false →
      tbl.lookup (b % 16) = tbl'.lookup (b % 16) →
      Record.decode (b :: rest) tbl = Record.decode (b :: rest) tbl' := by
    intro b rest tbl tbl' h7 h6 hl
    rw [record_decode_data_header b rest tbl h7 h6,
      record_decode_data_header b rest tbl' h7 h6, hl]
  refine ⟨?_, hcomp, hdef, hdata, record_decode_definition_header⟩
  intro rd tbl tbl' h
  cases rd with
  | nil => rfl
  | cons b rest =>
    cases h7 : b.testBit 7 with
    | true => exact hcomp b rest tbl tbl' h7
    | false =>
      cases h6 : b.testBit 6 with
      | true => exact hdef b rest tbl tbl' h7 h6
      | false => exact hdata b rest tbl tbl' h7 h6 (h (b % 16))

/-- Witness for C9: a data record decodes identically under two different
tables that agree on its slot. -/
theorem record_decode_table_readonly_witness :
    Record.decode [1, 196, 9] [(1, dAltLE)] =
      Record.decode [1, 196, 9] [(2, dAltBE), (1, dAltLE)] :=
  record_decode_table_readonly.2.2.2.1 1 [196, 9] [(1, dAltLE)]
    [(2, dAltBE), (1, dAltLE)] (by decide) (by decide) (by decide)

/-- Claim C10: a successful data decode yields one profile message per
stored field definition — regular fields first, developer fields after,
both in definition order — and entry i is the profile interpretation of
the i-th declared-size buffer. -/
theorem data_decode_message_per_field :
    ∀ (en : ByteOrder) (d : Definition) (rd : Rd) (data : Data) (rd' : Rd),
      Data.decode en d rd = .ok (data, rd') →
      data.messages.length =
          d.field_defs.length + (d.devfield_defs.getD []).length
      ∧ mapOrFail
          (fun p : FieldDefinition × List Nat =>
            profile.Message.decode en p.2 d.global_mesg_num p.1.num)
          (zipPairs d.allDefs
            (readBuffers (d.allDefs.map FieldDefinition.size) rd).1) =
        .ok data.messages := by
  intro en d rd data rd' h
  have hlen1 : ∀ (fds : List FieldDefinition) (r : Rd),
      (readBuffers (fds.map FieldDefinition.size) r).1.length = fds.length := by
    intro fds r
    rw [readBuffers_fst_length, List.length_map]
  unfold Data.decode at h
  cases h1 : decodeDataFields en d.global_mesg_num d.field_defs rd with
  | error e1 => rw [h1] at h; exact absurd h (by simp)
  | ok p =>
    obtain ⟨ms, rd1⟩ := p
    rw [h1] at h
    rw [decodeDataFields_eq] at h1
    cases hm1 : mapOrFail
        (fun p : FieldDefinition × List Nat =>
          profile.Message.decode en p.2 d.global_mesg_num p.1.num)
        (zipPairs d.field_defs
          (readBuffers (d.field_defs.map FieldDefinition.size) rd).1) with
    | error e1 => rw [hm1] at h1; exact absurd h1 (by simp)
    | ok ms1 =>
      rw [hm1] at h1
      simp only [Except.ok.injEq, Prod.mk.injEq] at h1
      obtain ⟨hms, hrd1⟩ := h1
      subst hms
      subst hrd1
      cases hdev : d.devfield_defs with
      | none =>
        rw [hdev] at h
        simp only [Except.ok.injEq, Prod.mk.injEq] at h
        obtain ⟨hdata, _⟩ := h
        subst hdata
        constructor
        · simp only [Option.getD_none, List.length_nil, Nat.add_zero]
          rw [mapOrFail_length _ _ _ hm1,
            zipPairs_length _ _ (by rw [hlen1])]
        · simp only [Definition.allDefs, hdev, Option.getD_none,
            List.append_nil]
          exact hm1
      | some devs =>
        rw [hdev] at h
        dsimp only at h
        cases h2 : decodeDataFields en d.global_mesg_num devs
            (rd.drop (d.field_defs.map FieldDefinition.size).sum) with
        | error e2 => rw [h2] at h; exact absurd h (by simp)
        | ok p2 =>
          obtain ⟨ms2, rd2⟩ := p2
          rw [h2] at h
          simp only [Except.ok.injEq, Prod.mk.injEq] at h
          obtain ⟨hdata, _⟩ := h
          subst hdata
          rw [decodeDataFields_eq] at h2
          cases hm2 : mapOrFail
              (fun p : FieldDefinition × List Nat =>
                profile.Message.decode en p.2 d.global_mesg_num p.1.num)
              (zipPairs devs
                (readBuffers (devs.map FieldDefinition.size)
                  (rd.drop (d.field_defs.map FieldDefinition.size).sum)).1) with
          | error e2 => rw [hm2] at h2; exact absurd h2 (by simp)
          | ok ms2' =>
            rw [hm2] at h2
            simp only [Except.ok.injEq, Prod.mk.injEq] at h2
            obtain ⟨hms2, _⟩ := h2
            subst hms2
            constructor
            · simp only [hdev, Option.getD_some, List.length_append]
              rw [mapOrFail_length _ _ _ hm1,
                zipPairs_length _ _ (by rw [hlen1]),
                mapOrFail_length _ _ _ hm2,
                zipPairs_length _ _ (by rw [hlen1])]
            · simp only [Definition.allDefs, hdev, Option.getD_some]
              rw [List.map_append, readBuffers_fst_append,
                zipPairs_append _ _ _ _ (by rw [hlen1]),
                mapOrFail_append, hm1, hm2]

/-- Witness for C10: a definition with one regular and one stored
developer field yields exactly two messages, the `Altitude` field and
the opaque developer bytes, in that order. -/
theorem data_decode_message_per_field_witness :
    (Data.mk [.Known 20 2 "Altitude"
        { raw_value := .uint 2500, scale := some 5, offset := some 500,
          units := some "m" },
      .VariantUnknown 20 [1, 2, 3] 255]).messages.length =
        dAltDev.field_defs.length + (dAltDev.devfield_defs.getD []).length
  ∧ mapOrFail
      (fun p : FieldDefinition × List Nat =>
        profile.Message.decode .LittleEndian p.2 dAltDev.global_mesg_num p.1.num)
      (zipPairs dAltDev.allDefs
        (readBuffers (dAltDev.allDefs.map FieldDefinition.size)
          [196, 9, 1, 2, 3, 7]).1) =
    .ok (Data.mk [.Known 20 2 "Altitude"
        { raw_value := .uint 2500, scale := some 5, offset := some 500,
          units := some "m" },
      .VariantUnknown 20 [1, 2, 3] 255]).messages :=
  data_decode_message_per_field .LittleEndian dAltDev [196, 9, 1, 2, 3, 7]
    (Data.mk [.Known 20 2 "Altitude"
        { raw_value := .uint 2500, scale := some 5, offset := some 500,
          units := some "m" },
      .VariantUnknown 20 [1, 2, 3] 255]) [7] (by decide)

end GarminFit
